import Mathlib

/-! Shallow Lean embedding of the movieflix-app caching/search core:
`backend/services/movieService.js`, `backend/models/Movie.js`, the movies
router and the cache-cleanup jobs file.  Pure JavaScript functions become
Lean functions; the MongoDB store becomes an explicit `List Movie` threaded
through the operations; external collaborators (the OMDB HTTP provider,
Mongo's text index and its relevance score) are oracle fields of `Env`.
Query operators are evaluated per MongoDB's documented semantics: `$gte`,
`$lte`, `$lt`, `$gt` with a numeric operand match only numeric field values
(never `null`/missing, by BSON type bracketing); `$in` on an array field
matches when some element is in the operand list; `$nin` matches when none
is.  Times are naturals (milliseconds since the epoch). -/

namespace MovieFlix

abbrev Time := Nat

/-- The fixed 24-hour TTL in milliseconds, `24 * 60 * 60 * 1000` in the source
(`Movie.js` default, `saveMovieToCache`, and the admin PUT route). -/
def ttlMs : Nat := 24 * 60 * 60 * 1000

/-! ### JavaScript-style string parsing helpers -/

/-- Numeric value of a decimal digit character. -/
def digitVal (c : Char) : Nat := c.toNat - 48

/-- Value of a digit list read as a decimal numeral. -/
def natOfDigits (ds : List Char) : Nat := ds.foldl (fun a c => 10 * a + digitVal c) 0

/-- Fold further digits onto an already-accumulated value. -/
def foldDigits (a : Nat) (ds : List Char) : Nat := ds.foldl (fun x c => 10 * x + digitVal c) a

/-- Scanner for the JS regex `(\d+)`: the value of the first maximal digit run
in the character list.  `acc` holds the value of the digit run currently being
read, if any. -/
def firstRunScan : List Char → Option Nat → Option Nat
  | [], acc => acc
  | c :: cs, acc =>
    if c.isDigit then firstRunScan cs (some (10 * (acc.getD 0) + digitVal c))
    else
      match acc with
      | some v => some v
      | none => firstRunScan cs none

/-- Scanner for the JS regex `(\d+)%`: the value of the first maximal digit run
that is immediately followed by a percent sign. -/
def pctScan : List Char → Option Nat → Option Nat
  | [], _ => none
  | c :: cs, acc =>
    if c.isDigit then pctScan cs (some (10 * (acc.getD 0) + digitVal c))
    else if c = '%' then
      match acc with
      | some v => some v
      | none => pctScan cs none
    else pctScan cs none

/-- Leading digit run of a character list, if the list starts with a digit. -/
def leadingNat : List Char → Option Nat
  | [] => none
  | c :: cs => if c.isDigit then some (natOfDigits (c :: cs.takeWhile Char.isDigit)) else none

/-- Model of JS `parseInt` on the strings this service feeds it: an optional
leading minus sign followed by a leading digit run; `none` models `NaN`. -/
def jsParseInt (s : String) : Option Int :=
  match s.data with
  | '-' :: cs => (leadingNat cs).map (fun n => -(n : Int))
  | cs => (leadingNat cs).map (fun n => (n : Int))

/-- Model of JS `parseFloat` on the provider's rating strings: a leading digit
run with an optional fractional part; `none` models `NaN`. -/
def jsParseFloat (s : String) : Option ℚ :=
  match s.data with
  | [] => none
  | c :: cs =>
    if c.isDigit then
      let ip := natOfDigits (c :: cs.takeWhile Char.isDigit)
      match cs.dropWhile Char.isDigit with
      | '.' :: ds =>
        let fs := ds.takeWhile Char.isDigit
        some ((ip : ℚ) + (natOfDigits fs : ℚ) / ((10 : ℚ) ^ fs.length))
      | _ => some ((ip : ℚ))
    else none

/-- Model of `str.replace(/,/g, "")`. -/
def stripCommas (s : String) : String := String.mk (s.data.filter (fun c => c != ','))

/-- Splitting a character list on the two-character separator of
`str.split(", ")`, leftmost-first; `cur` accumulates the current field in
reverse. -/
def splitCommaSpaceAux : List Char → List Char → List (List Char)
  | [], cur => [cur.reverse]
  | ',' :: ' ' :: rest, cur => cur.reverse :: splitCommaSpaceAux rest []
  | c :: rest, cur => splitCommaSpaceAux rest (c :: cur)

/-- Model of the JS `str.split(", ")` used for the provider's delimited
lists. -/
def jsSplitCommaSpace (s : String) : List String :=
  (splitCommaSpaceAux s.data []).map String.mk

/-! ### The provider's raw record and the normalized schema -/

/-- One entry of the provider's `Ratings` list-of-objects
(`\x7b Source, Value \x7d` pairs). -/
structure RatingEntry where
  source : String
  value : String
  deriving DecidableEq

/-- Raw OMDB detail payload, as consumed by `transformOMDBData`.  `Type'`
stands for the JS field `Type` (a Lean keyword). -/
structure OMDBRaw where
  imdbID : String
  Title : String
  Year : String
  Released : String
  Runtime : String
  Genre : String
  Director : String
  Writer : String
  Actors : String
  Plot : String
  Language : String
  Country : String
  imdbRating : String
  imdbVotes : String
  Ratings : List RatingEntry
  Poster : String
  Rated : String
  Type' : String
  deriving DecidableEq

/-- The nested `rating` block of the normalized schema, flattened. -/
structure RatingBlock where
  imdbScore : Option ℚ
  imdbVotes : Option Int
  rtScore : Option Nat
  mcScore : Option Nat
  deriving DecidableEq

/-- Output shape of `transformOMDBData` (no cache metadata yet; `released` is
kept as the raw date string, standing for the JS `Date` built from it). -/
structure NormalizedMovie where
  imdbID : String
  title : String
  year : Option Int
  released : Option String
  runtime : Option Nat
  genre : List String
  director : List String
  writer : List String
  actors : List String
  plot : String
  language : List String
  country : List String
  rating : RatingBlock
  poster : Option String
  rated : Option String
  type' : String
  linkImdb : String
  source : String
  deriving DecidableEq

/-- `MovieService.parseRuntime`: `null` for a missing/sentinel string,
otherwise the first digit run of the string (regex `(\d+)`), else `null`. -/
def parseRuntime (s : String) : Option Nat :=
  if s = "" ∨ s = "N/A" then none else firstRunScan s.data none

/-- `MovieService.extractRating`: look the source name up in the `Ratings`
list; parse a Rotten Tomatoes value with `(\d+)%` and a Metacritic value with
`(\d+)`; `null` score when the source is absent. -/
def extractRating (ratings : List RatingEntry) (src : String) : Option Nat :=
  match ratings.find? (fun r => r.source == src) with
  | none => none
  | some r =>
    if src = "Rotten Tomatoes" then pctScan r.value.data none
    else if src = "Metacritic" then firstRunScan r.value.data none
    else none

/-- `MovieService.transformOMDBData`: normalize a raw provider record.  Each
conditional mirrors one line of the JS object literal; note that `Title` is
passed through unchecked and `Type` only has the falsy-fallback `|| "movie"`. -/
def transformOMDBData (o : OMDBRaw) : NormalizedMovie :=
  { imdbID := o.imdbID
    title := o.Title
    year := (jsParseInt o.Year).bind (fun n => if n = 0 then none else some n)
    released := if o.Released = "N/A" then none else some o.Released
    runtime := parseRuntime o.Runtime
    genre := if o.Genre = "N/A" then [] else jsSplitCommaSpace o.Genre
    director := if o.Director = "N/A" then [] else jsSplitCommaSpace o.Director
    writer := if o.Writer = "N/A" then [] else jsSplitCommaSpace o.Writer
    actors := if o.Actors = "N/A" then [] else jsSplitCommaSpace o.Actors
    plot := if o.Plot = "N/A" then "" else o.Plot
    language := if o.Language = "N/A" then [] else jsSplitCommaSpace o.Language
    country := if o.Country = "N/A" then [] else jsSplitCommaSpace o.Country
    rating :=
      { imdbScore := if o.imdbRating = "N/A" then none else jsParseFloat o.imdbRating
        imdbVotes := if o.imdbVotes = "N/A" then none else jsParseInt (stripCommas o.imdbVotes)
        rtScore := extractRating o.Ratings "Rotten Tomatoes"
        mcScore := extractRating o.Ratings "Metacritic" }
    poster := if o.Poster = "N/A" then none else some o.Poster
    rated := if o.Rated = "N/A" then none else some o.Rated
    type' := if o.Type' = "" then "movie" else o.Type'
    linkImdb := "https://www.imdb.com/title/" ++ o.imdbID ++ "/"
    source := "omdb" }

/-! ### The stored record (`backend/models/Movie.js`) -/

/-- A persisted movie document.  `year` is non-optional because the schema
marks it `required` (a save with a null year fails validation); `cacheExpiry`,
`lastUpdated` and `createdAt` are the cache-management / timestamp fields. -/
structure Movie where
  imdbID : String
  title : String
  year : Int
  released : Option String
  runtime : Option Nat
  genre : List String
  director : List String
  writer : List String
  actors : List String
  plot : String
  language : List String
  country : List String
  rating : RatingBlock
  poster : Option String
  rated : Option String
  type' : String
  linkImdb : String
  source : String
  cacheExpiry : Time
  lastUpdated : Time
  createdAt : Time
  deriving DecidableEq

/-- The normalized payload carried by a stored record (used to state that an
upsert overwrote all normalized fields with the latest payload). -/
def Movie.toData (m : Movie) : NormalizedMovie :=
  { imdbID := m.imdbID
    title := m.title
    year := some m.year
    released := m.released
    runtime := m.runtime
    genre := m.genre
    director := m.director
    writer := m.writer
    actors := m.actors
    plot := m.plot
    language := m.language
    country := m.country
    rating := m.rating
    poster := m.poster
    rated := m.rated
    type' := m.type'
    linkImdb := m.linkImdb
    source := m.source }

/-- Mongoose schema validation of `Movie.js`, run by every `save()`:
required `imdbID`/`title` (the empty string is falsy, hence fails `required`),
required `year` within `[1888, maxYear]` (`maxYear` models the time-dependent
`new Date().getFullYear() + 5`), `runtime` at least 1 when set, rating scores
within their declared ranges, and the `type`/`source` enums. -/
def validNormalized (maxYear : Int) (d : NormalizedMovie) : Bool :=
  d.imdbID != "" && d.title != "" &&
  (match d.year with
   | some y => decide (1888 ≤ y) && decide (y ≤ maxYear)
   | none => false) &&
  (match d.runtime with
   | some r => decide (1 ≤ r)
   | none => true) &&
  (match d.rating.imdbScore with
   | some s => decide (0 ≤ s) && decide (s ≤ 10)
   | none => true) &&
  (match d.rating.imdbVotes with
   | some v => decide (0 ≤ v)
   | none => true) &&
  (match d.rating.rtScore with
   | some s => decide (s ≤ 100)
   | none => true) &&
  (match d.rating.mcScore with
   | some s => decide (s ≤ 100)
   | none => true) &&
  (d.type' == "movie" || d.type' == "series" || d.type' == "episode") &&
  (d.source == "omdb" || d.source == "tmdb")

/-- A record is active iff `now < cacheExpiry`: the `cacheExpiry: \x7b $gt:
new Date() \x7d` condition used by every cache query. -/
def isActive (now : Time) (m : Movie) : Bool := decide (now < m.cacheExpiry)

/-- Overwrite all normalized fields of a stored record with a fresh payload
(the `Object.assign(existingMovie, movieData)` of `saveMovieToCache`); cache
metadata and `createdAt` are untouched here. -/
def applyData (m : Movie) (d : NormalizedMovie) : Movie :=
  { imdbID := d.imdbID
    title := d.title
    year := d.year.getD 0
    released := d.released
    runtime := d.runtime
    genre := d.genre
    director := d.director
    writer := d.writer
    actors := d.actors
    plot := d.plot
    language := d.language
    country := d.country
    rating := d.rating
    poster := d.poster
    rated := d.rated
    type' := d.type'
    linkImdb := d.linkImdb
    source := d.source
    cacheExpiry := m.cacheExpiry
    lastUpdated := m.lastUpdated
    createdAt := m.createdAt }

/-- A freshly inserted record: payload fields plus the schema defaults
`cacheExpiry = now + 24h`, `lastUpdated = now`, and the `timestamps`
`createdAt = now`. -/
def newMovie (d : NormalizedMovie) (now : Time) : Movie :=
  { imdbID := d.imdbID
    title := d.title
    year := d.year.getD 0
    released := d.released
    runtime := d.runtime
    genre := d.genre
    director := d.director
    writer := d.writer
    actors := d.actors
    plot := d.plot
    language := d.language
    country := d.country
    rating := d.rating
    poster := d.poster
    rated := d.rated
    type' := d.type'
    linkImdb := d.linkImdb
    source := d.source
    cacheExpiry := now + ttlMs
    lastUpdated := now
    createdAt := now }

/-- `MovieService.saveMovieToCache`: upsert keyed on `imdbID`.  If a record
with the identifier exists, all normalized fields are overwritten in place and
`cacheExpiry`/`lastUpdated` refreshed; otherwise a new record is inserted with
the schema defaults.  A payload that fails schema validation makes `save()`
throw, caught and rethrown as the fixed failure message. -/
def saveMovieToCache (maxYear : Int) (store : List Movie) (d : NormalizedMovie) (now : Time) :
    Except String (Movie × List Movie) :=
  if validNormalized maxYear d then
    match store.find? (fun m => m.imdbID == d.imdbID) with
    | some old =>
      let upd : Movie :=
        { applyData old d with cacheExpiry := now + ttlMs, lastUpdated := now }
      .ok (upd, store.map (fun x => if x.imdbID == d.imdbID then upd else x))
    | none =>
      let nm := newMovie d now
      .ok (nm, store ++ [nm])
  else .error "Failed to save movie to database"

/-! ### The external-world oracle -/

/-- Outcome of `searchMoviesOMDB`: a thrown transport/configuration error, an
explicit `Response: "False"` no-results answer carrying the provider's error
string, or a page of candidate identifiers with the provider-reported total. -/
inductive ProviderSearch where
  | fail (msg : String)
  | noResults (err : String)
  | results (ids : List String) (total : Nat)
  deriving DecidableEq

/-- Oracles for the systems outside this repository: Mongo's `$text` match
predicate and relevance score for a search term, the OMDB search and detail
endpoints (with all transport, timeout and API-key failures folded into their
failure outcomes), the current schema year bound, and whether a bulk store
deletion fails. -/
structure Env where
  textMatch : String → Movie → Bool
  textScore : String → Movie → ℚ
  searchProvider : String → Nat → ProviderSearch
  fetchDetail : String → Except String OMDBRaw
  maxYear : Int
  dbFail : Bool

/-! ### Insertion sort (explicit model of the store's sort) -/

/-- Insert an element into a list sorted by the boolean relation `le`. -/
def insertLe {α : Type} (le : α → α → Bool) (x : α) : List α → List α
  | [] => [x]
  | y :: ys => if le x y then x :: y :: ys else y :: insertLe le x ys

/-- Insertion sort by the boolean relation `le`. -/
def sortLe {α : Type} (le : α → α → Bool) : List α → List α
  | [] => []
  | y :: ys => insertLe le y (sortLe le ys)

/-! ### `MovieService.searchMovies` -/

/-- Result shape of `searchMovies`.  The cache branch returns stored
documents, the API branch returns the freshly normalized `fullDetails`
objects; `source`/`page` are optional because the no-result provider answer is
returned as-is, without those fields. -/
structure SearchOut where
  cacheMovies : List Movie
  apiMovies : List NormalizedMovie
  totalResults : Nat
  source : Option String
  page : Option Nat
  errMsg : Option String
  deriving DecidableEq

/-- The cache lookup of `searchMovies`: active records matching the term by
text search, ranked by relevance (descending text score), limited to 10. -/
def activeTextMatches (env : Env) (store : List Movie) (now : Time) (term : String) :
    List Movie :=
  (sortLe (fun a b => decide (env.textScore term b ≤ env.textScore term a))
    (store.filter (fun m => env.textMatch term m && isActive now m))).take 10

/-- The per-item outcome of the fan-out in `searchMovies`: the normalized
detail payload if the detail fetch succeeds and the subsequent persist passes
schema validation, `none` if either step throws (the item's promise rejects
and is dropped).  Persistence success depends only on the payload, so this is
a function of the identifier alone. -/
def itemDetail (env : Env) (id : String) : Option NormalizedMovie :=
  match env.fetchDetail id with
  | .error _ => none
  | .ok raw =>
    let d := transformOMDBData raw
    if validNormalized env.maxYear d then some d else none

/-- One iteration of the caching fan-out: fetch full details, normalize,
persist; a failure leaves the store untouched and contributes no result. -/
def cacheOne (env : Env) (store : List Movie) (now : Time) (id : String) :
    Option NormalizedMovie × List Movie :=
  match env.fetchDetail id with
  | .error _ => (none, store)
  | .ok raw =>
    let d := transformOMDBData raw
    match saveMovieToCache env.maxYear store d now with
    | .error _ => (none, store)
    | .ok (_, store') => (some d, store')

/-- The whole caching fan-out over the provider's candidate identifiers
(`Promise.allSettled` followed by filtering the fulfilled, non-null values);
store writes are threaded in list order. -/
def cacheAll (env : Env) (store : List Movie) (now : Time) :
    List String → List NormalizedMovie × List Movie
  | [] => ([], store)
  | id :: rest =>
    let r := cacheOne env store now id
    let rec' := cacheAll env r.2 now rest
    (match r.1 with
     | some d => d :: rec'.1
     | none => rec'.1, rec'.2)

/-- The cache-hit output of `searchMovies`. -/
def cacheHitOut (env : Env) (store : List Movie) (now : Time) (term : String) (page : Nat) :
    SearchOut :=
  { cacheMovies := activeTextMatches env store now term
    apiMovies := []
    totalResults := (activeTextMatches env store now term).length
    source := some "cache"
    page := some page
    errMsg := none }

/-- The API-branch output of `searchMovies`: the successfully persisted
subset, with the provider-reported total. -/
def apiOut (env : Env) (ids : List String) (total : Nat) (page : Nat) : SearchOut :=
  { cacheMovies := []
    apiMovies := ids.filterMap (itemDetail env)
    totalResults := total
    source := some "api"
    page := some page
    errMsg := none }

/-- `MovieService.searchMovies`: check the cache first (when `useCache`), fall
back to the provider, cache each fetched result, and return the successful
subset; the pair carries the store after the call. -/
def searchMovies (env : Env) (store : List Movie) (now : Time) (term : String)
    (page : Nat) (useCache : Bool) : Except String (SearchOut × List Movie) :=
  let cached := if useCache then activeTextMatches env store now term else []
  if cached.length > 0 then
    .ok ({ cacheMovies := cached
           apiMovies := []
           totalResults := cached.length
           source := some "cache"
           page := some page
           errMsg := none }, store)
  else
    match env.searchProvider term page with
    | .fail msg => .error ("Failed to search movies: " ++ msg)
    | .noResults err =>
      .ok ({ cacheMovies := []
             apiMovies := []
             totalResults := 0
             source := none
             page := none
             errMsg := some err }, store)
    | .results ids total =>
      if ids.length > 0 then
        .ok ({ cacheMovies := []
               apiMovies := (cacheAll env store now ids).1
               totalResults := total
               source := some "api"
               page := some page
               errMsg := none }, (cacheAll env store now ids).2)
      else
        .ok ({ cacheMovies := []
               apiMovies := []
               totalResults := total
               source := none
               page := some page
               errMsg := none }, store)

/-! ### Filter parameters (validated by the Joi `searchSchema`) -/

/-- The `year` query parameter: a single year or a min/max object. -/
inductive YearFilter where
  | exact (v : Int)
  | range (lo : Option Int) (hi : Option Int)
  deriving DecidableEq

/-- The `rating` query parameter: a minimum score or a min/max object. -/
inductive RatingFilter where
  | atLeast (v : ℚ)
  | range (lo : Option ℚ) (hi : Option ℚ)
  deriving DecidableEq

/-- JS truthiness filter on an optional integer bound (`if (year.min) ...`):
a zero bound is falsy, hence ignored. -/
def truthyInt (o : Option Int) : Option Int :=
  o.bind (fun v => if v = 0 then none else some v)

/-- JS truthiness filter on an optional rational bound (`if (rating.min) ...`). -/
def truthyRat (o : Option ℚ) : Option ℚ :=
  o.bind (fun v => if v = 0 then none else some v)

/-- Truthiness of the whole `rating` parameter (`if (rating)` on both paths):
the scalar 0 is falsy, an object is always truthy. -/
def ratingActive : Option RatingFilter → Bool
  | none => false
  | some (.atLeast v) => decide (v ≠ 0)
  | some (.range _ _) => true

/-! ### Store-query filter semantics (`MovieService.getCachedMovies`) -/

/-- The `genre: \x7b $in: [...] \x7d` clause, guarded by
`genre && genre.length > 0`: some stored genre is among the requested ones. -/
def mongoGenre (g : Option (List String)) (m : Movie) : Bool :=
  match g with
  | none => true
  | some gs => if gs.length > 0 then m.genre.any (fun x => gs.contains x) else true

/-- The `year` clause: exact equality, or `$gte`/`$lte` bounds with truthiness
guards (the stored `year` is a required number, so no null bracketing arises). -/
def mongoYear (y : Option YearFilter) (m : Movie) : Bool :=
  match y with
  | none => true
  | some (.exact v) => if v = 0 then true else decide (m.year = v)
  | some (.range lo hi) =>
    (match truthyInt lo with
     | some a => decide (a ≤ m.year)
     | none => true) &&
    (match truthyInt hi with
     | some b => decide (m.year ≤ b)
     | none => true)

/-- The `rating.imdb.score` clause: `$gte` for the scalar form, `$gte`/`$lte`
bounds for the object form.  A numeric comparison operator never matches a
record whose score is null, per BSON type bracketing. -/
def mongoRating (r : Option RatingFilter) (m : Movie) : Bool :=
  match r with
  | none => true
  | some (.atLeast v) =>
    if v = 0 then true
    else
      match m.rating.imdbScore with
      | some s => decide (v ≤ s)
      | none => false
  | some (.range lo hi) =>
    match truthyRat lo, truthyRat hi with
    | none, none => true
    | a, b =>
      match m.rating.imdbScore with
      | none => false
      | some s =>
        (match a with
         | some x => decide (x ≤ s)
         | none => true) &&
        (match b with
         | some y => decide (s ≤ y)
         | none => true)

/-! ### Sorting -/

/-- Sort keys accepted by the Joi schema (`sort` parameter). -/
inductive SortKey where
  | title
  | year
  | rating
  | runtime
  | createdAt
  deriving DecidableEq

/-- Three-way comparison on integers, as a signed integer. -/
def cmpInt (x y : Int) : Int := if x < y then -1 else if y < x then 1 else 0

/-- Three-way comparison on rationals. -/
def cmpRat (x y : ℚ) : Int := if x < y then -1 else if y < x then 1 else 0

/-- Three-way comparison on naturals. -/
def cmpNat (x y : Nat) : Int := if x < y then -1 else if y < x then 1 else 0

/-- Three-way comparison on strings (code-point lexicographic, the binary
comparison Mongo applies to strings without a collation — case-sensitive). -/
def cmpStr (x y : String) : Int := if x < y then -1 else if y < x then 1 else 0

/-- Ascending BSON comparison of a sort key on two stored records; a null
optional field sorts below every number (BSON null-low). -/
def bsonKeyCmp (k : SortKey) (a b : Movie) : Int :=
  match k with
  | .title => cmpStr a.title b.title
  | .year => cmpInt a.year b.year
  | .rating =>
    match a.rating.imdbScore, b.rating.imdbScore with
    | none, none => 0
    | none, some _ => -1
    | some _, none => 1
    | some x, some y => cmpRat x y
  | .runtime =>
    match a.runtime, b.runtime with
    | none, none => 0
    | none, some _ => -1
    | some _, none => 1
    | some x, some y => cmpNat x y
  | .createdAt => cmpInt a.createdAt b.createdAt

/-- The store's sort comparator for `.sort(\x7b key: dir \x7d)`:
descending negates the ascending key comparison. -/
def mongoCmp (k : SortKey) (descOrd : Bool) (a b : Movie) : Int :=
  if descOrd then -(bsonKeyCmp k a b) else bsonKeyCmp k a b

/-! ### `MovieService.getCachedMovies` -/

/-- Pagination metadata and page slice returned by `getCachedMovies`. -/
structure ListOut where
  movies : List Movie
  page : Nat
  limit : Nat
  total : Nat
  pages : Nat
  deriving DecidableEq

/-- The composed query of `getCachedMovies`: active records, optional text
search, and the genre/year/rating clauses. -/
def mongoQueryMatch (env : Env) (now : Time) (search : Option String)
    (g : Option (List String)) (y : Option YearFilter) (r : Option RatingFilter)
    (m : Movie) : Bool :=
  isActive now m &&
  (match search with
   | some t => env.textMatch t m
   | none => true) &&
  mongoGenre g m && mongoYear y m && mongoRating r m

/-- Records matching the `getCachedMovies` query. -/
def matchedOf (env : Env) (store : List Movie) (now : Time) (search : Option String)
    (g : Option (List String)) (y : Option YearFilter) (r : Option RatingFilter) :
    List Movie :=
  store.filter (mongoQueryMatch env now search g y r)

/-- The ordered result of `getCachedMovies`: by text score when a search term
is present, else by the requested sort key and direction. -/
def orderedOf (env : Env) (store : List Movie) (now : Time) (search : Option String)
    (g : Option (List String)) (y : Option YearFilter) (r : Option RatingFilter)
    (k : SortKey) (descOrd : Bool) : List Movie :=
  match search with
  | some t =>
    sortLe (fun a b => decide (env.textScore t b ≤ env.textScore t a))
      (matchedOf env store now search g y r)
  | none =>
    sortLe (fun a b => decide (mongoCmp k descOrd a b ≤ 0))
      (matchedOf env store now search g y r)

/-- `MovieService.getCachedMovies`: filter, sort, then `skip((page-1)*limit)`
and `limit(limit)`; `pages = Math.ceil(total / limit)`, which for `limit ≥ 1`
equals `(total + limit - 1) / limit` in integer arithmetic. -/
def getCachedMovies (env : Env) (store : List Movie) (now : Time)
    (search : Option String) (g : Option (List String)) (y : Option YearFilter)
    (r : Option RatingFilter) (k : SortKey) (descOrd : Bool) (page limit : Nat) :
    ListOut :=
  { movies := ((orderedOf env store now search g y r k descOrd).drop ((page - 1) * limit)).take limit
    page := page
    limit := limit
    total := (matchedOf env store now search g y r).length
    pages := ((matchedOf env store now search g y r).length + limit - 1) / limit }

/-! ### The movies router's in-memory filter and sort (the unnamed
`routes/movies.js`, applied to freshly fetched API results) -/

/-- JS truthiness of the record's `rating.imdb.score` (the
`movie.rating.imdb.score` guard): null and 0 are falsy. -/
def scoreTruthy (d : NormalizedMovie) : Bool :=
  match d.rating.imdbScore with
  | some s => decide (s ≠ 0)
  | none => false

/-- JS numeric coercion of the possibly-null year in comparisons
(`movie.year < year.min` coerces null to 0). -/
def jsNumInt (o : Option Int) : Int :=
  match o with
  | some v => v
  | none => 0

/-- The genre check of the router's in-memory filter: `if (genre)` followed by
the any-intersection test (note: applied even to an empty genre array, which
is truthy in JS). -/
def routeGenre (g : Option (List String)) (d : NormalizedMovie) : Bool :=
  match g with
  | none => true
  | some gs => d.genre.any (fun x => gs.contains x)

/-- The year check of the router's in-memory filter: strict-equality for the
scalar form (null never equals a number), `<`/`>` comparisons with JS null→0
coercion for the range form, each bound behind a truthiness guard. -/
def routeYear (y : Option YearFilter) (d : NormalizedMovie) : Bool :=
  match y with
  | none => true
  | some (.exact v) => if v = 0 then true else d.year == some v
  | some (.range lo hi) =>
    !(match truthyInt lo with
      | some a => decide (jsNumInt d.year < a)
      | none => false) &&
    !(match truthyInt hi with
      | some b => decide (b < jsNumInt d.year)
      | none => false)

/-- The rating check of the router's in-memory filter: guarded by
`rating && movie.rating.imdb.score`, so it is skipped entirely for a record
whose score is null or zero. -/
def routeRating (r : Option RatingFilter) (d : NormalizedMovie) : Bool :=
  match r with
  | none => true
  | some rf =>
    if ratingActive (some rf) && scoreTruthy d then
      match rf, d.rating.imdbScore with
      | .atLeast v, some s => !(decide (s < v))
      | .range lo hi, some s =>
        !(match truthyRat lo with
          | some a => decide (s < a)
          | none => false) &&
        !(match truthyRat hi with
          | some b => decide (b < s)
          | none => false)
      | _, none => true
    else true

/-- The router's in-memory filter over one freshly fetched record, translated
from the `result.movies.filter(...)` callback: the three early-return checks
conjoined. -/
def routeKeep (g : Option (List String)) (y : Option YearFilter)
    (r : Option RatingFilter) (d : NormalizedMovie) : Bool :=
  routeGenre g d && routeYear y d && routeRating r d

/-- The router's in-memory comparator (the `result.movies.sort(...)`
callback): lowercased titles, numeric fields with `|| 0` null-coercion, and
`createdAt` absent from freshly normalized objects (both coerce to epoch 0). -/
def routeCompare (k : SortKey) (descOrd : Bool) (a b : NormalizedMovie) : Int :=
  let asc : Int :=
    match k with
    | .title => cmpStr a.title.toLower b.title.toLower
    | .year => cmpInt (jsNumInt a.year) (jsNumInt b.year)
    | .rating => cmpRat (a.rating.imdbScore.getD 0) (b.rating.imdbScore.getD 0)
    | .runtime => cmpNat (a.runtime.getD 0) (b.runtime.getD 0)
    | .createdAt => 0
  if descOrd then -asc else asc

/-! ### Cache cleanup (`cleanExpiredCache` and the jobs file) -/

/-- `MovieService.cleanExpiredCache`: delete every record with
`cacheExpiry < now` and return the deleted count; any store error is caught
and `0` returned (the store is left as-is in that case). -/
def cleanExpiredCache (env : Env) (store : List Movie) (now : Time) :
    Nat × List Movie :=
  if env.dbFail then (0, store)
  else
    ((store.filter (fun m => decide (m.cacheExpiry < now))).length,
     store.filter (fun m => !(decide (m.cacheExpiry < now))))

/-- The deletion predicate built by `cleanupByCriteria`.  Note the rating
(and year) min/max clauses merge into one field condition
`\x7b $lt: min, $gt: max \x7d`, a conjunction; `$nin` on the array `genre`
matches records having none of the listed genres. -/
def criteriaMatch (olderThan : Option Time) (rating : Option (Option ℚ × Option ℚ))
    (genre : Option (List String)) (year : Option (Option Int × Option Int))
    (m : Movie) : Bool :=
  (match olderThan with
   | some t => decide (m.createdAt < t)
   | none => true) &&
  (match rating with
   | none => true
   | some (lo, hi) =>
     match truthyRat lo, truthyRat hi with
     | none, none => true
     | a, b =>
       match m.rating.imdbScore with
       | none => false
       | some s =>
         (match a with
          | some x => decide (s < x)
          | none => true) &&
         (match b with
          | some y => decide (y < s)
          | none => true)) &&
  (match genre with
   | none => true
   | some gs => if gs.length > 0 then !(m.genre.any (fun x => gs.contains x)) else true) &&
  (match year with
   | none => true
   | some (lo, hi) =>
     (match truthyInt lo with
      | some x => decide (m.year < x)
      | none => true) &&
     (match truthyInt hi with
      | some y => decide (y < m.year)
      | none => true))

/-- `cleanupByCriteria` of the jobs file: `deleteMany` with the composed
criteria query; returns the deleted count and the remaining store. -/
def cleanupByCriteria (store : List Movie) (olderThan : Option Time)
    (rating : Option (Option ℚ × Option ℚ)) (genre : Option (List String))
    (year : Option (Option Int × Option Int)) : Nat × List Movie :=
  ((store.filter (criteriaMatch olderThan rating genre year)).length,
   store.filter (fun m => !(criteriaMatch olderThan rating genre year m)))

/-! ### Joi validation of pagination parameters (`searchSchema`) -/

/-- `page: Joi.number().integer().min(1).default(1)`. -/
def joiPage (o : Option Int) : Option Int :=
  match o with
  | none => some 1
  | some v => if 1 ≤ v then some v else none

/-- `limit: Joi.number().integer().min(1).max(50).default(20)`. -/
def joiLimit (o : Option Int) : Option Int :=
  match o with
  | none => some 20
  | some v => if 1 ≤ v && v ≤ 50 then some v else none

/-- The admin PUT route's refresh: overwrite with freshly fetched data and
push `cacheExpiry`/`lastUpdated`, exactly as the upsert's update branch. -/
def refreshMovie (old : Movie) (d : NormalizedMovie) (now : Time) : Movie :=
  { applyData old d with cacheExpiry := now + ttlMs, lastUpdated := now }

/-- Records in a store carrying a given external identifier. -/
def idCount (s : List Movie) (i : String) : Nat :=
  (s.filter (fun m => m.imdbID == i)).length

/-- The store invariant backed by the unique index on `imdbID`. -/
def UniqueIds (s : List Movie) : Prop := ∀ i, idCount s i ≤ 1

/-! ### Concrete fixtures for witnesses and counterexamples -/

/-- A well-formed raw provider payload. -/
def rawInception : OMDBRaw :=
  { imdbID := "tt1375666"
    Title := "Inception"
    Year := "2010"
    Released := "16 Jul 2010"
    Runtime := "148 min"
    Genre := "Action, Sci-Fi"
    Director := "Christopher Nolan"
    Writer := "Christopher Nolan"
    Actors := "Leonardo DiCaprio"
    Plot := "A thief who steals corporate secrets."
    Language := "English"
    Country := "USA"
    imdbRating := "8"
    imdbVotes := "2,200,000"
    Ratings := [{ source := "Rotten Tomatoes", value := "87%" },
                { source := "Metacritic", value := "74/100" }]
    Poster := "https://img.example/inception.jpg"
    Rated := "PG-13"
    Type' := "movie" }

/-- The same payload under another identifier (provider detail endpoint echoes
the identifier it was asked for). -/
def rawFor (i : String) : OMDBRaw := { rawInception with imdbID := i }

/-- A plain stored record with a null primary rating score. -/
def mNullScore : Movie :=
  { imdbID := "tt0000001"
    title := "Alpha"
    year := 2010
    released := none
    runtime := some 100
    genre := ["Action"]
    director := []
    writer := []
    actors := []
    plot := ""
    language := []
    country := []
    rating := { imdbScore := none, imdbVotes := none, rtScore := none, mcScore := none }
    poster := none
    rated := none
    type' := "movie"
    linkImdb := ""
    source := "omdb"
    cacheExpiry := 100
    lastUpdated := 0
    createdAt := 0 }

/-- A stored record with primary score 3 (outside the band `[5, 8]`). -/
def mLowScore : Movie :=
  { mNullScore with
      imdbID := "tt0000002"
      rating := { imdbScore := some 3, imdbVotes := none, rtScore := none, mcScore := none } }

/-- A stored record with primary score 7. -/
def mMidScore : Movie :=
  { mNullScore with
      imdbID := "tt0000003"
      title := "Beta"
      year := 2015
      rating := { imdbScore := some 7, imdbVotes := none, rtScore := none, mcScore := none } }

/-- An active cached record whose title is the search term used in witnesses. -/
def mInception : Movie :=
  { mNullScore with imdbID := "tt1375666", title := "Inception", cacheExpiry := 1000 }

/-- A family of distinct active records for the pagination witnesses. -/
def mkM (i : Nat) : Movie :=
  { mNullScore with imdbID := "t" ++ toString i, createdAt := i, cacheExpiry := 1000 }

/-- Forty-five active records (the pagination scenario of the spec). -/
def store45 : List Movie := (List.range 45).map mkM

/-- Eleven active records (more than the 10-record cache cap). -/
def store11 : List Movie := (List.range 11).map mkM

/-- Baseline oracle: title-equality text match, constant relevance, a
one-candidate provider answer, detail fetches that echo the identifier,
schema year bound 2100, healthy store. -/
def envBase : Env :=
  { textMatch := fun t m => m.title == t
    textScore := fun _ _ => 0
    searchProvider := fun _ _ => .results ["tt1375666"] 1
    fetchDetail := fun i => .ok (rawFor i)
    maxYear := 2100
    dbFail := false }

/-- Oracle whose provider finds nothing. -/
def envNoRes : Env := { envBase with searchProvider := fun _ _ => .noResults "Movie not found!" }

/-- Oracle with a three-candidate provider answer whose second detail fetch
times out. -/
def envPartial : Env :=
  { envBase with
      searchProvider := fun _ _ => .results ["tt0000011", "tt0000012", "tt0000013"] 3
      fetchDetail := fun i =>
        if i == "tt0000012" then .error "timeout of 10000ms exceeded" else .ok (rawFor i) }

/-- Oracle whose text match accepts every record. -/
def envAllMatch : Env := { envBase with textMatch := fun _ _ => true }

/-- Oracle whose store deletions fail. -/
def envDbFail : Env := { envBase with dbFail := true }

/-- The normalized payload of the baseline raw record. -/
def dInception : NormalizedMovie := transformOMDBData rawInception

/-- The record created by upserting `dInception` into an empty store at
time 10. -/
def mSaved1 : Movie := newMovie dInception 10

/-- The record after re-upserting the same payload at time 20. -/
def mSaved2 : Movie :=
  { applyData mSaved1 dInception with cacheExpiry := 20 + ttlMs, lastUpdated := 20 }

/-- Store contents after the first upsert. -/
def s1fix : List Movie := [mSaved1]

/-- Store contents after the second upsert. -/
def s2fix : List Movie := [mSaved2]

/-! ## Theorems -/

/-! ### Sorting helper lemmas -/

theorem mem_insertLe {α : Type} (le : α → α → Bool) (x : α) (l : List α) (a : α) :
    a ∈ insertLe le x l ↔ a = x ∨ a ∈ l := by
  induction l with
  | nil => simp [insertLe]
  | cons y ys ih =>
    simp only [insertLe]
    split
    · simp
    · simp only [List.mem_cons, ih]
      tauto

theorem mem_sortLe {α : Type} (le : α → α → Bool) (l : List α) (a : α) :
    a ∈ sortLe le l ↔ a ∈ l := by
  induction l with
  | nil => simp [sortLe]
  | cons y ys ih => simp [sortLe, mem_insertLe, ih]

theorem length_insertLe {α : Type} (le : α → α → Bool) (x : α) (l : List α) :
    (insertLe le x l).length = l.length + 1 := by
  induction l with
  | nil => simp [insertLe]
  | cons y ys ih =>
    simp only [insertLe]
    split <;> simp [ih]

theorem length_sortLe {α : Type} (le : α → α → Bool) (l : List α) :
    (sortLe le l).length = l.length := by
  induction l with
  | nil => rfl
  | cons y ys ih => simp [sortLe, length_insertLe, ih]

/-! ### Upsert helper lemmas -/

theorem save_ok_cases {maxYear : Int} {store : List Movie} {d : NormalizedMovie}
    {now : Time} {m : Movie} {s' : List Movie}
    (h : saveMovieToCache maxYear store d now = .ok (m, s')) :
    validNormalized maxYear d = true ∧
    ((∃ old, store.find? (fun x => x.imdbID == d.imdbID) = some old ∧
        m = { applyData old d with cacheExpiry := now + ttlMs, lastUpdated := now } ∧
        s' = store.map (fun x => if x.imdbID == d.imdbID then m else x)) ∨
      (store.find? (fun x => x.imdbID == d.imdbID) = none ∧
        m = newMovie d now ∧ s' = store ++ [m])) := by
  unfold saveMovieToCache at h
  split at h
  · rename_i hv
    refine ⟨hv, ?_⟩
    split at h
    · rename_i old hfind
      cases h
      exact Or.inl ⟨old, hfind, rfl, rfl⟩
    · rename_i hfind
      cases h
      exact Or.inr ⟨hfind, rfl, rfl⟩
  · cases h

theorem save_error_of_invalid {maxYear : Int} {store : List Movie} {d : NormalizedMovie}
    {now : Time} (h : validNormalized maxYear d = false) :
    saveMovieToCache maxYear store d now = .error "Failed to save movie to database" := by
  unfold saveMovieToCache
  rw [h]
  rfl

theorem save_expiry {maxYear : Int} {store : List Movie} {d : NormalizedMovie}
    {now : Time} {m : Movie} {s' : List Movie}
    (h : saveMovieToCache maxYear store d now = .ok (m, s')) :
    m.cacheExpiry = now + ttlMs ∧ m.lastUpdated = now ∧ m.imdbID = d.imdbID := by
  rcases (save_ok_cases h).2 with ⟨old, _, hm, _⟩ | ⟨_, hm, _⟩ <;> subst hm
  · exact ⟨rfl, rfl, rfl⟩
  · exact ⟨rfl, rfl, rfl⟩

theorem save_mem {maxYear : Int} {store : List Movie} {d : NormalizedMovie}
    {now : Time} {m : Movie} {s' : List Movie}
    (h : saveMovieToCache maxYear store d now = .ok (m, s')) : m ∈ s' := by
  rcases (save_ok_cases h).2 with ⟨old, hfind, hm, hs⟩ | ⟨_, _, hs⟩
  · subst hs
    refine List.mem_map.mpr ⟨old, List.mem_of_find?_eq_some hfind, ?_⟩
    have hp := List.find?_some hfind
    simp only [hp, if_true]
  · subst hs
    simp

theorem save_subset {maxYear : Int} {store : List Movie} {d : NormalizedMovie}
    {now : Time} {m : Movie} {s' : List Movie}
    (h : saveMovieToCache maxYear store d now = .ok (m, s')) :
    ∀ x ∈ s', x = m ∨ x ∈ store := by
  rcases (save_ok_cases h).2 with ⟨old, _, _, hs⟩ | ⟨_, _, hs⟩ <;> subst hs
  · intro x hx
    rcases List.mem_map.mp hx with ⟨a, ha, hfa⟩
    by_cases hid : (a.imdbID == d.imdbID) = true
    · simp only [hid, if_true] at hfa
      exact Or.inl hfa.symm
    · rw [Bool.not_eq_true] at hid
      simp only [hid, Bool.false_eq_true, if_false] at hfa
      exact Or.inr (hfa ▸ ha)
  · intro x hx
    rcases List.mem_append.mp hx with hx | hx
    · exact Or.inr hx
    · simp only [List.mem_singleton] at hx
      exact Or.inl hx

theorem valid_year_some {maxYear : Int} {d : NormalizedMovie}
    (h : validNormalized maxYear d = true) : d.year = some (d.year.getD 0) := by
  unfold validNormalized at h
  simp only [Bool.and_eq_true] at h
  rcases h with ⟨⟨⟨⟨⟨⟨⟨⟨⟨-, -⟩, hy⟩, -⟩, -⟩, -⟩, -⟩, -⟩, -⟩, -⟩
  cases hyr : d.year with
  | none => rw [hyr] at hy; cases hy
  | some y => simp [hyr]

theorem save_toData {maxYear : Int} {store : List Movie} {d : NormalizedMovie}
    {now : Time} {m : Movie} {s' : List Movie}
    (h : saveMovieToCache maxYear store d now = .ok (m, s')) :
    Movie.toData m = d := by
  have hv := (save_ok_cases h).1
  have hy := valid_year_some hv
  rcases (save_ok_cases h).2 with ⟨old, _, hm, _⟩ | ⟨_, hm, _⟩ <;> subst hm <;>
    · obtain ⟨i, t, yr, rl, rt, ge, di, wr, ac, pl, la, co, ra, po, rd, ty, li, so⟩ := d
      simp only [Movie.toData, applyData, newMovie]
      simp only at hy
      rw [← hy]

theorem idCount_cons (x : Movie) (s : List Movie) (j : String) :
    idCount (x :: s) j = (if x.imdbID == j then 1 else 0) + idCount s j := by
  by_cases h : (x.imdbID == j) = true <;>
    simp [idCount, List.filter_cons, h, Nat.add_comm]

theorem idCount_append_single (s : List Movie) (x : Movie) (j : String) :
    idCount (s ++ [x]) j = idCount s j + (if x.imdbID == j then 1 else 0) := by
  by_cases h : (x.imdbID == j) = true <;>
    simp [idCount, List.filter_append, List.filter_cons, h]

theorem idCount_pos_of_find? {s : List Movie} {j : String} {old : Movie}
    (h : s.find? (fun x => x.imdbID == j) = some old) : 1 ≤ idCount s j := by
  have hp := List.find?_some h
  have hmem : old ∈ s.filter (fun x => x.imdbID == j) :=
    List.mem_filter.mpr ⟨List.mem_of_find?_eq_some h, hp⟩
  have := List.length_pos.mpr (List.ne_nil_of_mem hmem)
  simpa [idCount] using this

theorem idCount_zero_of_find?_none {s : List Movie} {j : String}
    (h : s.find? (fun x => x.imdbID == j) = none) : idCount s j = 0 := by
  have := List.find?_eq_none.mp h
  simp only [idCount, List.length_eq_zero, List.filter_eq_nil_iff]
  intro a ha
  exact this a ha

theorem idCount_map_replace (store : List Movie) (i : String) (upd : Movie)
    (hupd : upd.imdbID = i) (j : String) :
    idCount (store.map (fun x => if x.imdbID == i then upd else x)) j =
      idCount store j := by
  induction store with
  | nil => rfl
  | cons a s ih =>
    rw [List.map_cons, idCount_cons, idCount_cons, ih]
    by_cases hid : (a.imdbID == i) = true
    · have : a.imdbID = i := by simpa using hid
      simp [hid, hupd, this]
    · rw [Bool.not_eq_true] at hid
      simp [hid]

theorem save_idCount {maxYear : Int} {store : List Movie} {d : NormalizedMovie}
    {now : Time} {m : Movie} {s' : List Movie}
    (h : saveMovieToCache maxYear store d now = .ok (m, s')) :
    (idCount store d.imdbID ≤ 1 → idCount s' d.imdbID = 1) ∧
    (∀ j, j ≠ d.imdbID → idCount s' j = idCount store j) := by
  have hid := (save_expiry h).2.2
  rcases (save_ok_cases h).2 with ⟨old, hfind, _, hs⟩ | ⟨hfind, _, hs⟩ <;> subst hs
  · constructor
    · intro hle
      rw [idCount_map_replace store d.imdbID m hid]
      exact Nat.le_antisymm hle (idCount_pos_of_find? hfind)
    · intro j _
      exact idCount_map_replace store d.imdbID m hid j
  · constructor
    · intro _
      rw [idCount_append_single, idCount_zero_of_find?_none hfind, hid]
      simp
    · intro j hj
      rw [idCount_append_single, hid]
      have hne : (d.imdbID == j) = false := by
        simp only [beq_eq_false_iff_ne, ne_eq]
        exact fun hc => hj hc.symm
      rw [hne]
      simp

theorem save_unique {maxYear : Int} {store : List Movie} {d : NormalizedMovie}
    {now : Time} {m : Movie} {s' : List Movie}
    (h : saveMovieToCache maxYear store d now = .ok (m, s'))
    (hu : UniqueIds store) : UniqueIds s' := by
  intro j
  by_cases hj : j = d.imdbID
  · rw [hj, (save_idCount h).1 (hu d.imdbID)]
  · rw [(save_idCount h).2 j hj]
    exact hu j

theorem save_preserves_fresh {maxYear : Int} {store : List Movie} {d : NormalizedMovie}
    {now : Time} {m : Movie} {s' : List Movie} {i : String}
    (h : saveMovieToCache maxYear store d now = .ok (m, s'))
    (hex : ∃ w ∈ store, w.imdbID = i ∧ w.cacheExpiry = now + ttlMs) :
    ∃ w ∈ s', w.imdbID = i ∧ w.cacheExpiry = now + ttlMs := by
  rcases hex with ⟨w, hw, hwi, hwe⟩
  obtain ⟨hme, -, hmi⟩ := save_expiry h
  rcases (save_ok_cases h).2 with ⟨old, hfind, _, hs⟩ | ⟨_, _, hs⟩ <;> subst hs
  · by_cases hidw : (w.imdbID == d.imdbID) = true
    · have hwd : w.imdbID = d.imdbID := by simpa using hidw
      refine ⟨m, List.mem_map.mpr ⟨w, hw, by simp [hidw]⟩, ?_, hme⟩
      rw [hmi, ← hwd, hwi]
    · rw [Bool.not_eq_true] at hidw
      exact ⟨w, List.mem_map.mpr ⟨w, hw, by simp [hidw]⟩, hwi, hwe⟩
  · exact ⟨w, List.mem_append_left _ hw, hwi, hwe⟩

/-! ### Fan-out helper lemmas -/

theorem save_error_valid {maxYear : Int} {store : List Movie} {d : NormalizedMovie}
    {now : Time} {e : String}
    (h : saveMovieToCache maxYear store d now = .error e) :
    validNormalized maxYear d = false := by
  by_cases hv : validNormalized maxYear d = true
  · exfalso
    unfold saveMovieToCache at h
    simp only [hv, if_true] at h
    rcases hfind : store.find? (fun x => x.imdbID == d.imdbID) with - | old <;>
      rw [hfind] at h <;> cases h
  · exact Bool.not_eq_true _ |>.mp hv

theorem cacheOne_fst (env : Env) (store : List Movie) (now : Time) (id : String) :
    (cacheOne env store now id).1 = itemDetail env id := by
  cases hf : env.fetchDetail id with
  | error e => simp only [cacheOne, itemDetail, hf]
  | ok raw =>
    simp only [cacheOne, itemDetail, hf]
    cases hsave : saveMovieToCache env.maxYear store (transformOMDBData raw) now with
    | error e =>
      simp only [hsave, save_error_valid hsave, if_false, Bool.false_eq_true]
    | ok p =>
      obtain ⟨m', s''⟩ := p
      simp only [hsave, (save_ok_cases hsave).1, if_true]

theorem cacheAll_fst_cons (env : Env) (store : List Movie) (now : Time)
    (id : String) (rest : List String) :
    (cacheAll env store now (id :: rest)).1 =
      (match (cacheOne env store now id).1 with
       | some d => d :: (cacheAll env (cacheOne env store now id).2 now rest).1
       | none => (cacheAll env (cacheOne env store now id).2 now rest).1) := rfl

theorem cacheAll_snd_cons (env : Env) (store : List Movie) (now : Time)
    (id : String) (rest : List String) :
    (cacheAll env store now (id :: rest)).2 =
      (cacheAll env (cacheOne env store now id).2 now rest).2 := rfl

theorem cacheAll_fst (env : Env) (now : Time) :
    ∀ (ids : List String) (store : List Movie),
      (cacheAll env store now ids).1 = ids.filterMap (itemDetail env) := by
  intro ids
  induction ids with
  | nil => intro store; rfl
  | cons id rest ih =>
    intro store
    rw [cacheAll_fst_cons, cacheOne_fst, List.filterMap_cons, ih]
    cases itemDetail env id <;> rfl

theorem cacheAll_preserves_fresh {env : Env} {now : Time} {i : String} :
    ∀ (ids : List String) (store : List Movie),
      (∃ w ∈ store, w.imdbID = i ∧ w.cacheExpiry = now + ttlMs) →
      ∃ w ∈ (cacheAll env store now ids).2, w.imdbID = i ∧ w.cacheExpiry = now + ttlMs := by
  intro ids
  induction ids with
  | nil => intro store h; exact h
  | cons id rest ih =>
    intro store h
    rw [cacheAll_snd_cons]
    apply ih
    cases hf : env.fetchDetail id with
    | error e =>
      simpa only [cacheOne, hf] using h
    | ok raw =>
      cases hsave : saveMovieToCache env.maxYear store (transformOMDBData raw) now with
      | error e =>
        simpa only [cacheOne, hf, hsave] using h
      | ok p =>
        obtain ⟨m', s''⟩ := p
        simpa only [cacheOne, hf, hsave] using save_preserves_fresh hsave h

theorem cacheOne_some {env : Env} {store : List Movie} {now : Time} {id : String}
    {d0 : NormalizedMovie} (h : (cacheOne env store now id).1 = some d0) :
    ∃ w ∈ (cacheOne env store now id).2,
      w.imdbID = d0.imdbID ∧ w.cacheExpiry = now + ttlMs := by
  cases hf : env.fetchDetail id with
  | error e =>
    simp only [cacheOne, hf] at h
    exact Option.noConfusion h
  | ok raw =>
    simp only [cacheOne, hf] at h ⊢
    cases hsave : saveMovieToCache env.maxYear store (transformOMDBData raw) now with
    | error e =>
      rw [hsave] at h
      exact Option.noConfusion h
    | ok p =>
      obtain ⟨m', s''⟩ := p
      rw [hsave] at h
      have h' : transformOMDBData raw = d0 := Option.some.inj h
      obtain ⟨hme, -, hmi⟩ := save_expiry hsave
      exact ⟨m', save_mem hsave, by rw [hmi, h'], hme⟩

theorem cacheAll_persist {env : Env} {now : Time} :
    ∀ (ids : List String) (store : List Movie),
      ∀ d ∈ (cacheAll env store now ids).1,
        ∃ w ∈ (cacheAll env store now ids).2,
          w.imdbID = d.imdbID ∧ w.cacheExpiry = now + ttlMs := by
  intro ids
  induction ids with
  | nil => intro store d hd; cases hd
  | cons id rest ih =>
    intro store d hd
    rw [cacheAll_fst_cons] at hd
    rw [cacheAll_snd_cons]
    cases h1 : (cacheOne env store now id).1 with
    | none =>
      rw [h1] at hd
      exact ih _ d hd
    | some d0 =>
      rw [h1] at hd
      rcases List.mem_cons.mp hd with heq | hd'
      · subst heq
        exact cacheAll_preserves_fresh rest _ (cacheOne_some h1)
      · exact ih _ d hd'

theorem length_filterMap_add {α β : Type} (f : α → Option β) (l : List α) :
    (l.filterMap f).length + (l.filter (fun a => (f a).isNone)).length = l.length := by
  induction l with
  | nil => rfl
  | cons a as ih =>
    rw [List.filterMap_cons, List.filter_cons]
    cases hf : f a <;> simp [hf, ← ih] <;> omega

/-! ### `searchMovies` branch lemmas -/

theorem searchMovies_hit {env : Env} {store : List Movie} {now : Time} {term : String}
    (page : Nat) (h : activeTextMatches env store now term ≠ []) :
    searchMovies env store now term page true =
      .ok (cacheHitOut env store now term page, store) := by
  have hlen : 0 < (activeTextMatches env store now term).length := List.length_pos.mpr h
  unfold searchMovies
  simp only [if_true, gt_iff_lt, hlen, cacheHitOut]

theorem searchMovies_miss_results {env : Env} {store : List Movie} {now : Time}
    {term : String} {page : Nat} {useCache : Bool} {ids : List String} {total : Nat}
    (hc : (if useCache then activeTextMatches env store now term else []) = [])
    (hs : env.searchProvider term page = .results ids total) (hn : ids ≠ []) :
    searchMovies env store now term page useCache =
      .ok (apiOut env ids total page, (cacheAll env store now ids).2) := by
  have hlen : 0 < ids.length := List.length_pos.mpr hn
  unfold searchMovies
  rw [hc]
  simp only [List.length_nil, gt_iff_lt, lt_self_iff_false, if_false, hs, hlen, if_true,
    apiOut, cacheAll_fst]

theorem searchMovies_miss_noResults {env : Env} {store : List Movie} {now : Time}
    {term : String} {page : Nat} {useCache : Bool} {err : String}
    (hc : (if useCache then activeTextMatches env store now term else []) = [])
    (hs : env.searchProvider term page = .noResults err) :
    searchMovies env store now term page useCache =
      .ok ({ cacheMovies := []
             apiMovies := []
             totalResults := 0
             source := none
             page := none
             errMsg := some err }, store) := by
  unfold searchMovies
  rw [hc]
  simp only [List.length_nil, gt_iff_lt, lt_self_iff_false, if_false, hs]

theorem mem_activeTextMatches {env : Env} {store : List Movie} {now : Time}
    {term : String} {m : Movie} (h : m ∈ activeTextMatches env store now term) :
    m ∈ store ∧ env.textMatch term m = true ∧ now < m.cacheExpiry := by
  have h1 := List.mem_of_mem_take h
  rw [mem_sortLe] at h1
  have h2 := List.mem_filter.mp h1
  have h3 := h2.2
  simp only [Bool.and_eq_true, isActive, decide_eq_true_eq] at h3
  exact ⟨h2.1, h3.1, h3.2⟩

theorem length_activeTextMatches (env : Env) (store : List Movie) (now : Time)
    (term : String) :
    (activeTextMatches env store now term).length =
      min 10 ((store.filter (fun m => env.textMatch term m && isActive now m)).length) := by
  unfold activeTextMatches
  rw [List.length_take, length_sortLe]

theorem activeTextMatches_ne_nil {env : Env} {store : List Movie} {now : Time}
    {term : String} {m : Movie} (hm : m ∈ store) (ht : env.textMatch term m = true)
    (ha : now < m.cacheExpiry) : activeTextMatches env store now term ≠ [] := by
  have hmem : m ∈ store.filter (fun x => env.textMatch term x && isActive now x) := by
    refine List.mem_filter.mpr ⟨hm, ?_⟩
    simp only [Bool.and_eq_true, isActive, decide_eq_true_eq]
    exact ⟨ht, ha⟩
  intro hnil
  have := congrArg List.length hnil
  rw [length_activeTextMatches] at this
  simp only [List.length_nil, Nat.min_eq_zero_iff] at this
  rcases this with h10 | h0
  · cases h10
  · exact absurd (List.length_pos.mpr (List.ne_nil_of_mem hmem)) (by omega)

theorem activeTextMatches_congr {env env' : Env} (h1 : env'.textMatch = env.textMatch)
    (h2 : env'.textScore = env.textScore) (store : List Movie) (now : Time)
    (term : String) :
    activeTextMatches env' store now term = activeTextMatches env store now term := by
  unfold activeTextMatches
  rw [h1, h2]

/-! ### Claim C1 -/

/-- Claim C1 counterexample: with an empty store and the provider reporting no
results, `searchMovies` consults the provider, yet the returned result is
tagged with neither `source="api"` nor `source="cache"`: the provider's empty
answer is passed through without a `source` field.  So the claim that every
provider-path call "returns the persisted records tagged source=api" fails at
this input. -/
theorem C1_counterexample :
    (searchMovies envNoRes [] 0 "Inception" 1 true).map (fun p => p.1.source) =
        .ok none ∧
      ¬ (searchMovies envNoRes [] 0 "Inception" 1 true).map (fun p => p.1.source) =
        .ok (some "api") := by
  have h1 : (searchMovies envNoRes [] 0 "Inception" 1 true).map (fun p => p.1.source) =
      .ok none := rfl
  refine ⟨h1, fun hcon => ?_⟩
  rw [h1] at hcon
  exact Option.noConfusion (Except.ok.inj hcon)

/-- Claim C1 (amended): with `useCache = true`, (i) when at least one active
record textually matches the term the call returns up to 10 of those records
tagged `source="cache"`, leaves the store unchanged, and its outcome is
independent of the provider oracles; (ii) on a cache miss, when the provider
returns at least one candidate identifier, every successfully fetched result
is persisted with a fresh 24h expiry and the call returns exactly those
records tagged `source="api"`; (iii) any store state holding an active
matching record — such as the store right after the miss-then-persist of (ii)
— makes the same search hit the cache, tagged `source="cache"`. -/
theorem C1_cache_aside :
    (∀ (env : Env) (store : List Movie) (now : Time) (term : String) (page : Nat),
        activeTextMatches env store now term ≠ [] →
        searchMovies env store now term page true =
            .ok (cacheHitOut env store now term page, store) ∧
          (cacheHitOut env store now term page).source = some "cache" ∧
          (∀ m ∈ (cacheHitOut env store now term page).cacheMovies,
            m ∈ store ∧ env.textMatch term m = true ∧ now < m.cacheExpiry) ∧
          ∀ env' : Env, env'.textMatch = env.textMatch → env'.textScore = env.textScore →
            searchMovies env' store now term page true =
              searchMovies env store now term page true) ∧
    (∀ (env : Env) (store : List Movie) (now : Time) (term : String) (page : Nat)
        (ids : List String) (total : Nat),
        activeTextMatches env store now term = [] →
        env.searchProvider term page = .results ids total → ids ≠ [] →
        searchMovies env store now term page true =
            .ok (apiOut env ids total page, (cacheAll env store now ids).2) ∧
          (apiOut env ids total page).source = some "api" ∧
          ∀ d ∈ (apiOut env ids total page).apiMovies,
            ∃ w ∈ (cacheAll env store now ids).2,
              w.imdbID = d.imdbID ∧ w.cacheExpiry = now + ttlMs) ∧
    (∀ (env : Env) (store2 : List Movie) (now2 : Time) (term : String) (page : Nat)
        (m : Movie), m ∈ store2 → env.textMatch term m = true → now2 < m.cacheExpiry →
        searchMovies env store2 now2 term page true =
            .ok (cacheHitOut env store2 now2 term page, store2) ∧
          (cacheHitOut env store2 now2 term page).source = some "cache") := by
  refine ⟨?_, ?_, ?_⟩
  · intro env store now term page h
    refine ⟨searchMovies_hit page h, rfl, ?_, ?_⟩
    · intro m hm
      exact mem_activeTextMatches hm
    · intro env' h1 h2
      have hac := activeTextMatches_congr h1 h2 store now term
      have h' : activeTextMatches env' store now term ≠ [] := by
        rw [hac]; exact h
      rw [searchMovies_hit page h', searchMovies_hit page h]
      unfold cacheHitOut
      rw [hac]
  · intro env store now term page ids total hm hs hn
    have hc : (if true then activeTextMatches env store now term else []) = [] := by
      simpa using hm
    refine ⟨searchMovies_miss_results hc hs hn, rfl, ?_⟩
    intro d hd
    have hd' : d ∈ (cacheAll env store now ids).1 := by
      rw [cacheAll_fst]
      exact hd
    exact cacheAll_persist ids store d hd'
  · intro env store2 now2 term page m hm ht ha
    exact ⟨searchMovies_hit page (activeTextMatches_ne_nil hm ht ha), rfl⟩

/-- Claim C1 witness: concrete instances of all three conjuncts — a cache hit
on a one-record store; a miss-then-persist against the one-candidate provider;
and the repeat search hitting the cache on the store produced by the miss. -/
theorem C1_cache_aside_witness :
    (searchMovies envBase [mInception] 5 "Inception" 1 true =
        .ok (cacheHitOut envBase [mInception] 5 "Inception" 1, [mInception])) ∧
      (cacheHitOut envBase [mInception] 5 "Inception" 1).source = some "cache" ∧
    (searchMovies envBase [] 0 "Inception" 1 true =
        .ok (apiOut envBase ["tt1375666"] 1 1, (cacheAll envBase [] 0 ["tt1375666"]).2)) ∧
      (apiOut envBase ["tt1375666"] 1 1).source = some "api" ∧
    (searchMovies envBase [mInception] 5 "Inception" 1 true =
        .ok (cacheHitOut envBase [mInception] 5 "Inception" 1, [mInception])) := by
  have h1 := C1_cache_aside.1 envBase [mInception] 5 "Inception" 1 (by decide)
  have h2 := C1_cache_aside.2.1 envBase [] 0 "Inception" 1 ["tt1375666"] 1
    (by decide) (by decide) (by decide)
  have h3 := C1_cache_aside.2.2 envBase [mInception] 5 "Inception" 1 mInception
    (by decide) (by decide) (by decide)
  exact ⟨h1.1, h1.2.1, h2.1, h2.2.1, h3.1⟩

/-! ### Claim C2 -/

/-- Claim C2: every `searchMovies` call that reaches the provider and receives
`n` candidate identifiers finishes normally (`Except.ok`); the returned list
is exactly the successfully fetched-and-persisted subset, and its length plus
the number of failed items equals `n` — one item's failure never aborts the
batch.  The `n = 0` case returns normally with zero records. -/
theorem C2_partial_batch :
    (∀ (env : Env) (store : List Movie) (now : Time) (term : String) (page : Nat)
        (useCache : Bool) (ids : List String) (total : Nat),
        (if useCache then activeTextMatches env store now term else []) = [] →
        env.searchProvider term page = .results ids total → ids ≠ [] →
        searchMovies env store now term page useCache =
            .ok (apiOut env ids total page, (cacheAll env store now ids).2) ∧
          (apiOut env ids total page).apiMovies = ids.filterMap (itemDetail env) ∧
          (apiOut env ids total page).apiMovies.length +
            (ids.filter (fun i => (itemDetail env i).isNone)).length = ids.length) ∧
    (∀ (env : Env) (store : List Movie) (now : Time) (term : String) (page : Nat)
        (useCache : Bool) (total : Nat),
        (if useCache then activeTextMatches env store now term else []) = [] →
        env.searchProvider term page = .results [] total →
        searchMovies env store now term page useCache =
          .ok ({ cacheMovies := []
                 apiMovies := []
                 totalResults := total
                 source := none
                 page := some page
                 errMsg := none }, store)) := by
  constructor
  · intro env store now term page useCache ids total hc hs hn
    refine ⟨searchMovies_miss_results hc hs hn, rfl, ?_⟩
    exact length_filterMap_add (itemDetail env) ids
  · intro env store now term page useCache total hc hs
    unfold searchMovies
    rw [hc]
    simp only [List.length_nil, gt_iff_lt, lt_self_iff_false, if_false, hs]

/-- Claim C2 witness: the spec's scenario — three candidates, the second
detail fetch times out, the call returns normally with exactly the two
persisted records (2 successes + 1 failure = 3 candidates). -/
theorem C2_partial_batch_witness :
    (searchMovies envPartial [] 0 "Batman" 1 true =
        .ok (apiOut envPartial ["tt0000011", "tt0000012", "tt0000013"] 3 1,
          (cacheAll envPartial [] 0 ["tt0000011", "tt0000012", "tt0000013"]).2)) ∧
      (apiOut envPartial ["tt0000011", "tt0000012", "tt0000013"] 3 1).apiMovies.length +
        (["tt0000011", "tt0000012", "tt0000013"].filter
          (fun i => (itemDetail envPartial i).isNone)).length = 3 ∧
      (apiOut envPartial ["tt0000011", "tt0000012", "tt0000013"] 3 1).apiMovies.length = 2 := by
  have h := C2_partial_batch.1 envPartial [] 0 "Batman" 1 true
    ["tt0000011", "tt0000012", "tt0000013"] 3 (by decide) (by decide) (by decide)
  exact ⟨h.1, h.2.2, by decide⟩

/-! ### Claim C9 -/

/-- Claim C9: a cache-satisfied search returns at most 10 records — exactly
`min 10 (number of active textual matches)`, so 10 even when more match — and
its reported `totalResults` equals the number of returned cached records, not
any provider total. -/
theorem C9_cache_limit :
    ∀ (env : Env) (store : List Movie) (now : Time) (term : String) (page : Nat),
      (activeTextMatches env store now term).length =
        min 10 ((store.filter (fun m => env.textMatch term m && isActive now m)).length) ∧
      (activeTextMatches env store now term ≠ [] →
        searchMovies env store now term page true =
            .ok (cacheHitOut env store now term page, store) ∧
          (cacheHitOut env store now term page).totalResults =
            (cacheHitOut env store now term page).cacheMovies.length ∧
          (cacheHitOut env store now term page).cacheMovies.length ≤ 10) := by
  intro env store now term page
  refine ⟨length_activeTextMatches env store now term, fun h => ⟨searchMovies_hit page h, rfl, ?_⟩⟩
  show (activeTextMatches env store now term).length ≤ 10
  rw [length_activeTextMatches]
  exact Nat.min_le_left _ _

/-- Claim C9 witness: eleven active records all matching the term; the cache
hit returns exactly 10 of them and reports `totalResults = 10`. -/
theorem C9_cache_limit_witness :
    (activeTextMatches envAllMatch store11 0 "x").length =
        min 10 ((store11.filter
          (fun m => envAllMatch.textMatch "x" m && isActive 0 m)).length) ∧
      (cacheHitOut envAllMatch store11 0 "x" 1).cacheMovies.length ≤ 10 ∧
      (cacheHitOut envAllMatch store11 0 "x" 1).cacheMovies.length = 10 ∧
      store11.length = 11 := by
  have h := C9_cache_limit envAllMatch store11 0 "x" 1
  have h2 := h.2 (by decide)
  exact ⟨h.1, h2.2.2, by decide, by decide⟩

/-! ### Claim C3 -/

/-- Claim C3: every stored record carries a `cacheExpiry` (a total field of
the schema, defaulted on create); after any upsert — create or refresh — the
saved record's `cacheExpiry` is exactly the operation time plus the 24h TTL
and its `lastUpdated` is the operation time, while all other records are left
as they were; the admin refresh behaves identically; and "active" means
exactly `now < cacheExpiry`, the predicate used by the cache search and the
store query. -/
theorem C3_ttl_invariant :
    (∀ (maxYear : Int) (store : List Movie) (d : NormalizedMovie) (now : Time)
        (m : Movie) (s' : List Movie),
        saveMovieToCache maxYear store d now = .ok (m, s') →
        m.cacheExpiry = now + ttlMs ∧ m.lastUpdated = now ∧ m ∈ s' ∧
          ∀ x ∈ s', x = m ∨ x ∈ store) ∧
    (∀ (old : Movie) (d : NormalizedMovie) (now : Time),
        (refreshMovie old d now).cacheExpiry = now + ttlMs ∧
        (refreshMovie old d now).lastUpdated = now) ∧
    (∀ (now : Time) (m : Movie), isActive now m = true ↔ now < m.cacheExpiry) ∧
    (∀ (env : Env) (store : List Movie) (now : Time) (term : String),
        ∀ m ∈ activeTextMatches env store now term, now < m.cacheExpiry) ∧
    (∀ (env : Env) (now : Time) (search : Option String) (g : Option (List String))
        (y : Option YearFilter) (r : Option RatingFilter) (m : Movie),
        mongoQueryMatch env now search g y r m = true → now < m.cacheExpiry) := by
  refine ⟨?_, ?_, ?_, ?_, ?_⟩
  · intro maxYear store d now m s' h
    obtain ⟨he, hl, -⟩ := save_expiry h
    exact ⟨he, hl, save_mem h, save_subset h⟩
  · intro old d now
    exact ⟨rfl, rfl⟩
  · intro now m
    simp [isActive]
  · intro env store now term m hm
    exact (mem_activeTextMatches hm).2.2
  · intro env now search g y r m h
    unfold mongoQueryMatch at h
    simp only [Bool.and_eq_true, isActive, decide_eq_true_eq] at h
    exact h.1.1.1.1

/-- Claim C3 witness: the concrete create at time 10, refresh at time 20, and
the activity predicate on a concrete record. -/
theorem C3_ttl_invariant_witness :
    (newMovie dInception 10).cacheExpiry = 10 + ttlMs ∧
      (newMovie dInception 10).lastUpdated = 10 ∧
      (refreshMovie mNullScore dInception 20).cacheExpiry = 20 + ttlMs ∧
      (isActive 5 mInception = true ↔ (5 : Nat) < mInception.cacheExpiry) := by
  have hsave : saveMovieToCache 2100 [] dInception 10 =
      .ok (newMovie dInception 10, [newMovie dInception 10]) := by rfl
  have h1 := C3_ttl_invariant.1 2100 [] dInception 10 _ _ hsave
  have h2 := C3_ttl_invariant.2.1 mNullScore dInception 20
  have h3 := C3_ttl_invariant.2.2.1 5 mInception
  exact ⟨h1.1, h1.2.1, h2.1, h3⟩

/-! ### Claim C5 -/

/-- Claim C5: the upsert is keyed on the external identifier and idempotent —
under the store's unique-identifier invariant, upserting the same normalized
payload twice leaves exactly one record carrying that identifier, whose
normalized fields equal the latest payload and whose `cacheExpiry` and
`lastUpdated` reflect the second upsert; all unrelated records are untouched;
and when the identifier was absent the first upsert appended a fresh record
with a fresh expiry. -/
theorem C5_upsert_idempotent :
    ∀ (maxYear : Int) (store : List Movie) (d : NormalizedMovie) (t1 t2 : Time)
      (m1 : Movie) (s1 : List Movie) (m2 : Movie) (s2 : List Movie),
      UniqueIds store →
      saveMovieToCache maxYear store d t1 = .ok (m1, s1) →
      saveMovieToCache maxYear s1 d t2 = .ok (m2, s2) →
      s2.filter (fun x => x.imdbID == d.imdbID) = [m2] ∧
      Movie.toData m2 = d ∧
      m2.cacheExpiry = t2 + ttlMs ∧ m2.lastUpdated = t2 ∧
      UniqueIds s2 ∧
      (∀ x ∈ s2, x.imdbID ≠ d.imdbID → x ∈ store) ∧
      (store.find? (fun x => x.imdbID == d.imdbID) = none →
        s1 = store ++ [m1] ∧ m1.cacheExpiry = t1 + ttlMs) := by
  intro maxYear store d t1 t2 m1 s1 m2 s2 hu h1 h2
  have hu1 : UniqueIds s1 := save_unique h1 hu
  have hu2 : UniqueIds s2 := save_unique h2 hu1
  obtain ⟨he2, hl2, hi2⟩ := save_expiry h2
  obtain ⟨he1, -, hi1⟩ := save_expiry h1
  have hcount : idCount s2 d.imdbID = 1 := (save_idCount h2).1 (hu1 d.imdbID)
  have hmem2 : m2 ∈ s2.filter (fun x => x.imdbID == d.imdbID) :=
    List.mem_filter.mpr ⟨save_mem h2, by simp [hi2]⟩
  refine ⟨?_, save_toData h2, he2, hl2, hu2, ?_, ?_⟩
  · rcases List.length_eq_one.mp hcount with ⟨a, ha⟩
    rw [ha] at hmem2 ⊢
    simp only [List.mem_singleton] at hmem2
    rw [hmem2]
  · intro x hx hxne
    rcases save_subset h2 x hx with rfl | hx1
    · exact absurd hi2 hxne
    · rcases save_subset h1 x hx1 with rfl | hx0
      · exact absurd hi1 hxne
      · exact hx0
  · intro hfind
    rcases (save_ok_cases h1).2 with ⟨old, hfind', -, -⟩ | ⟨-, -, hs⟩
    · rw [hfind] at hfind'
      cases hfind'
    · exact ⟨hs, he1⟩

/-- Claim C5 witness: upserting the normalized baseline payload twice into an
empty store at times 10 then 20 yields exactly one record with the payload's
identifier, equal to the latest payload, with expiry pushed to 20 + TTL. -/
theorem C5_upsert_idempotent_witness :
    s2fix.filter (fun x => x.imdbID == dInception.imdbID) = [mSaved2] ∧
      Movie.toData mSaved2 = dInception ∧
      mSaved2.cacheExpiry = 20 + ttlMs ∧ mSaved2.lastUpdated = 20 := by
  have h := C5_upsert_idempotent 2100 [] dInception 10 20 mSaved1 s1fix mSaved2 s2fix
    (fun i => by simp [idCount]) (by rfl) (by rfl)
  exact ⟨h.1, h.2.1, h.2.2.1, h.2.2.2.1⟩

/-! ### Claim C7 -/

/-- Claim C7 is false of the code (a code bug): `cleanupByCriteria` merges a
two-sided rating exclusion range into the single field condition
`score < min AND score > max`, which no record satisfies when `min ≤ max`.
With range min 5, max 8, the record with score 3 — outside `[5, 8]`, hence to
be deleted per the claim — survives and the reported deleted count is 0,
whereas a one-sided range (min only) does delete it, confirming the intent. -/
theorem C7_rating_purge_noop :
    cleanupByCriteria [mLowScore] none (some (some 5, some 8)) none none =
        (0, [mLowScore]) ∧
      mLowScore.rating.imdbScore = some 3 ∧
      ¬ ((5 : ℚ) ≤ 3 ∧ (3 : ℚ) ≤ 8) ∧
      (cleanupByCriteria [mLowScore] none (some (some 5, none)) none none).1 = 1 := by
  refine ⟨by decide, by decide, by decide, by decide⟩

/-! ### Claim C10 -/

/-- Claim C10: `cleanExpiredCache` is a total operation returning a count (a
natural, hence non-negative) in every store state: on a healthy store it
deletes exactly the records with `cacheExpiry < now` and returns their count;
on a failing store deletion it catches the error and returns 0 — the same
count a healthy purge returns on a store with no expired records, making the
two indistinguishable. -/
theorem C10_purge_total :
    ∀ (env : Env) (store : List Movie) (now : Time),
      (env.dbFail = true → cleanExpiredCache env store now = (0, store)) ∧
      (env.dbFail = false →
        (cleanExpiredCache env store now).1 =
            (store.filter (fun m => decide (m.cacheExpiry < now))).length ∧
          (cleanExpiredCache env store now).2 =
            store.filter (fun m => !(decide (m.cacheExpiry < now)))) ∧
      (env.dbFail = true →
        (cleanExpiredCache env store now).1 =
          (cleanExpiredCache { env with dbFail := false }
            (store.filter (fun m => !(decide (m.cacheExpiry < now)))) now).1) := by
  intro env store now
  refine ⟨fun h => by simp [cleanExpiredCache, h],
    fun h => by simp [cleanExpiredCache, h], fun h => ?_⟩
  have hnil : (store.filter (fun m => !(decide (m.cacheExpiry < now)))).filter
      (fun m => decide (m.cacheExpiry < now)) = [] := by
    rw [List.filter_filter]
    apply List.filter_eq_nil_iff.mpr
    intro a ha
    by_cases hc : a.cacheExpiry < now <;> simp [hc]
  simp [cleanExpiredCache, h, hnil]

/-- Claim C10 witness: a store whose single record is long expired — the
failing purge reports 0; the healthy purge on the same store reports 1 and on
the already-purged store reports 0. -/
theorem C10_purge_total_witness :
    cleanExpiredCache envDbFail [mNullScore] 500 = (0, [mNullScore]) ∧
      (cleanExpiredCache envBase [mNullScore] 500).1 =
        ([mNullScore].filter (fun m => decide (m.cacheExpiry < 500))).length ∧
      (cleanExpiredCache envBase [mNullScore] 500).1 = 1 := by
  have h1 := (C10_purge_total envDbFail [mNullScore] 500).1 (by rfl)
  have h2 := ((C10_purge_total envBase [mNullScore] 500).2.1 (by rfl)).1
  exact ⟨h1, h2, by decide⟩

/-! ### Digit-scanner lemmas (for Claim C4) -/

theorem natOfDigits_cons (d : Char) (ds : List Char) :
    natOfDigits (d :: ds) = foldDigits (digitVal d) ds := by
  simp [natOfDigits, foldDigits]

theorem foldDigits_cons (a : Nat) (d : Char) (ds : List Char) :
    foldDigits a (d :: ds) = foldDigits (10 * a + digitVal d) ds := rfl

theorem firstRunScan_digits (ds : List Char) (hds : ∀ c ∈ ds, c.isDigit = true)
    (r : List Char) (hr : ∀ c ∈ r.take 1, c.isDigit = false) (a : Nat) :
    firstRunScan (ds ++ r) (some a) = some (foldDigits a ds) := by
  induction ds generalizing a with
  | nil =>
    simp only [List.nil_append, foldDigits, List.foldl_nil]
    cases r with
    | nil => rfl
    | cons c rest =>
      have hc : c.isDigit = false := hr c (by simp)
      simp [firstRunScan, hc]
  | cons d ds' ih =>
    have hd : d.isDigit = true := hds d (List.mem_cons_self _ _)
    simp only [List.cons_append, firstRunScan, hd, if_true, Option.getD_some,
      List.append_eq]
    rw [ih (fun c hc => hds c (List.mem_cons_of_mem _ hc)), foldDigits_cons]

theorem firstRunScan_start (d : Char) (ds : List Char) (hd : d.isDigit = true)
    (hds : ∀ c ∈ ds, c.isDigit = true) (r : List Char)
    (hr : ∀ c ∈ r.take 1, c.isDigit = false) :
    firstRunScan (d :: ds ++ r) none = some (natOfDigits (d :: ds)) := by
  have h0 : firstRunScan (d :: (ds ++ r)) none =
      firstRunScan (ds ++ r) (some (10 * 0 + digitVal d)) := by
    simp [firstRunScan, hd]
  rw [List.cons_append, h0, firstRunScan_digits ds hds r hr, natOfDigits_cons]
  norm_num

theorem firstRunScan_none (cs : List Char) (h : ∀ c ∈ cs, c.isDigit = false) :
    firstRunScan cs none = none := by
  induction cs with
  | nil => rfl
  | cons c rest ih =>
    have hc : c.isDigit = false := h c (List.mem_cons_self _ _)
    simp only [firstRunScan, hc, Bool.false_eq_true, if_false]
    exact ih (fun x hx => h x (List.mem_cons_of_mem _ hx))

theorem pctScan_digits (ds : List Char) (hds : ∀ c ∈ ds, c.isDigit = true)
    (r : List Char) (a : Nat) :
    pctScan (ds ++ '%' :: r) (some a) = some (foldDigits a ds) := by
  induction ds generalizing a with
  | nil =>
    simp [pctScan, foldDigits]
  | cons d ds' ih =>
    have hd : d.isDigit = true := hds d (List.mem_cons_self _ _)
    simp only [List.cons_append, pctScan, hd, if_true, Option.getD_some,
      List.append_eq]
    rw [ih (fun c hc => hds c (List.mem_cons_of_mem _ hc)), foldDigits_cons]

theorem pctScan_start (d : Char) (ds : List Char) (hd : d.isDigit = true)
    (hds : ∀ c ∈ ds, c.isDigit = true) (r : List Char) :
    pctScan (d :: ds ++ '%' :: r) none = some (natOfDigits (d :: ds)) := by
  have h0 : pctScan (d :: (ds ++ '%' :: r)) none =
      pctScan (ds ++ '%' :: r) (some (10 * 0 + digitVal d)) := by
    simp [pctScan, hd]
  rw [List.cons_append, h0, pctScan_digits ds hds r, natOfDigits_cons]
  norm_num

theorem parseRuntime_digit_head (d : Char) (rest : List Char) (hd : d.isDigit = true) :
    parseRuntime (String.mk (d :: rest)) = firstRunScan (d :: rest) none := by
  unfold parseRuntime
  rw [if_neg]
  push_neg
  constructor
  · intro h
    have := congrArg String.data h
    simp at this
  · intro h
    have hdata : d :: rest = ['N', '/', 'A'] := by
      have := congrArg String.data h
      simpa using this
    rw [List.cons_eq_cons] at hdata
    rw [hdata.1] at hd
    exact absurd hd (by decide)

/-! ### Claim C4 -/

/-- Claim C4 counterexample: the normalization passes the sentinel through
unchanged in the required `Title` field (and in `Type`, where `"N/A"` is
truthy): a raw record with `Title = "N/A"` normalizes to `title = "N/A"`,
the literal sentinel — refuting "maps every provider 'N/A' sentinel to empty
string, empty list, or null (never the literal sentinel)". -/
theorem C4_counterexample :
    (transformOMDBData { rawInception with Title := "N/A" }).title = "N/A" ∧
      (transformOMDBData { rawInception with Type' := "N/A" }).type' = "N/A" := by
  exact ⟨rfl, rfl⟩

/-- Claim C4 (amended): normalization is a pure function (deterministic by
construction); every `"N/A"` sentinel among the optional fields (Year,
Released, Runtime, Genre, Director, Writer, Actors, Plot, Language, Country,
imdbRating, imdbVotes, Poster, Rated) maps to empty string, empty list or
null — the required `Title` (and `Type`) fields pass the sentinel through
unchecked; a runtime string of the form "NNN min" parses to the integer NNN
minutes and a runtime without digits to null; a Rotten Tomatoes value "NNN%"
parses to the integer NNN (within 0–100 whenever the provider sends a genuine
percentage) and a numeric Metacritic value to its leading integer; an absent
secondary rating source yields a null score. -/
theorem C4_normalization :
    (∀ o : OMDBRaw,
      (o.Year = "N/A" → (transformOMDBData o).year = none) ∧
      (o.Released = "N/A" → (transformOMDBData o).released = none) ∧
      (o.Runtime = "N/A" → (transformOMDBData o).runtime = none) ∧
      (o.Genre = "N/A" → (transformOMDBData o).genre = []) ∧
      (o.Director = "N/A" → (transformOMDBData o).director = []) ∧
      (o.Writer = "N/A" → (transformOMDBData o).writer = []) ∧
      (o.Actors = "N/A" → (transformOMDBData o).actors = []) ∧
      (o.Plot = "N/A" → (transformOMDBData o).plot = "") ∧
      (o.Language = "N/A" → (transformOMDBData o).language = []) ∧
      (o.Country = "N/A" → (transformOMDBData o).country = []) ∧
      (o.imdbRating = "N/A" → (transformOMDBData o).rating.imdbScore = none) ∧
      (o.imdbVotes = "N/A" → (transformOMDBData o).rating.imdbVotes = none) ∧
      (o.Poster = "N/A" → (transformOMDBData o).poster = none) ∧
      (o.Rated = "N/A" → (transformOMDBData o).rated = none)) ∧
    (∀ (o : OMDBRaw) (d : Char) (ds : List Char),
      d.isDigit = true → (∀ c ∈ ds, c.isDigit = true) →
      o.Runtime = String.mk (d :: ds ++ [' ', 'm', 'i', 'n']) →
      (transformOMDBData o).runtime = some (natOfDigits (d :: ds))) ∧
    (∀ o : OMDBRaw, (∀ c ∈ o.Runtime.data, c.isDigit = false) →
      (transformOMDBData o).runtime = none) ∧
    (∀ (rs : List RatingEntry) (d : Char) (ds : List Char),
      d.isDigit = true → (∀ c ∈ ds, c.isDigit = true) →
      rs.find? (fun r => r.source == "Rotten Tomatoes") =
        some { source := "Rotten Tomatoes", value := String.mk (d :: ds ++ ['%']) } →
      extractRating rs "Rotten Tomatoes" = some (natOfDigits (d :: ds))) ∧
    (∀ (rs : List RatingEntry) (d : Char) (ds : List Char) (r : List Char),
      d.isDigit = true → (∀ c ∈ ds, c.isDigit = true) →
      (∀ c ∈ r.take 1, c.isDigit = false) →
      rs.find? (fun r0 => r0.source == "Metacritic") =
        some { source := "Metacritic", value := String.mk (d :: ds ++ r) } →
      extractRating rs "Metacritic" = some (natOfDigits (d :: ds))) ∧
    (∀ (rs : List RatingEntry) (src : String),
      rs.find? (fun r => r.source == src) = none → extractRating rs src = none) ∧
    (∀ o : OMDBRaw,
      (transformOMDBData o).rating.rtScore = extractRating o.Ratings "Rotten Tomatoes" ∧
      (transformOMDBData o).rating.mcScore = extractRating o.Ratings "Metacritic") := by
  refine ⟨?_, ?_, ?_, ?_, ?_, ?_, ?_⟩
  · intro o
    refine ⟨?_, ?_, ?_, ?_, ?_, ?_, ?_, ?_, ?_, ?_, ?_, ?_, ?_, ?_⟩ <;>
      · intro h
        simp only [transformOMDBData, h]
        all_goals rfl
  · intro o d ds hd hds heq
    show parseRuntime o.Runtime = _
    rw [heq, List.cons_append,
      parseRuntime_digit_head d (ds ++ [' ', 'm', 'i', 'n']) hd]
    have h := firstRunScan_start d ds hd hds [' ', 'm', 'i', 'n'] (by decide)
    rw [List.cons_append] at h
    exact h
  · intro o h
    show parseRuntime o.Runtime = _
    unfold parseRuntime
    split
    · rfl
    · exact firstRunScan_none o.Runtime.data h
  · intro rs d ds hd hds hfind
    unfold extractRating
    rw [hfind]
    have h := pctScan_start d ds hd hds []
    simpa using h
  · intro rs d ds r hd hds hr hfind
    unfold extractRating
    rw [hfind]
    have h := firstRunScan_start d ds hd hds r hr
    simpa using h
  · intro rs src hfind
    unfold extractRating
    rw [hfind]
  · intro o
    exact ⟨rfl, rfl⟩

/-- Claim C4 witness: concrete instances — each sentinel field mapped, the
"148 min" runtime parsed to 148, the "87%" Rotten Tomatoes value parsed to 87
(a valid percentage), the "74/100" Metacritic value parsed to 74, and a null
score for an absent source. -/
theorem C4_normalization_witness :
    (transformOMDBData { rawInception with Plot := "N/A" }).plot = "" ∧
      (transformOMDBData { rawInception with Genre := "N/A" }).genre = [] ∧
      (transformOMDBData { rawInception with Poster := "N/A" }).poster = none ∧
      (transformOMDBData rawInception).runtime = some 148 ∧
      extractRating rawInception.Ratings "Rotten Tomatoes" = some 87 ∧
      (87 ≤ 100) ∧
      extractRating rawInception.Ratings "Metacritic" = some 74 ∧
      extractRating [] "Rotten Tomatoes" = none := by
  have ha := C4_normalization.1
  have hplot := (ha { rawInception with Plot := "N/A" }).2.2.2.2.2.2.2.1 rfl
  have hgenre := (ha { rawInception with Genre := "N/A" }).2.2.2.1 rfl
  have hposter := (ha { rawInception with Poster := "N/A" }).2.2.2.2.2.2.2.2.2.2.2.2.1 rfl
  have hrt := C4_normalization.2.1 rawInception '1' ['4', '8'] (by decide) (by decide)
    (by decide)
  have hpct := C4_normalization.2.2.2.1 rawInception.Ratings '8' ['7'] (by decide)
    (by decide) (by decide)
  have hmc := C4_normalization.2.2.2.2.1 rawInception.Ratings '7' ['4']
    ['/', '1', '0', '0'] (by decide) (by decide) (by decide) (by decide)
  have habs := C4_normalization.2.2.2.2.2.1 [] "Rotten Tomatoes" (by decide)
  refine ⟨hplot, hgenre, hposter, ?_, ?_, by decide, ?_, habs⟩
  · rw [hrt]
    decide
  · rw [hpct]
    decide
  · rw [hmc]
    decide

/-! ### Filter-agreement lemmas (for Claim C6) -/

theorem decide_lt_not_le {α : Type} [LinearOrder α] (x y : α) :
    decide (y < x) = !decide (x ≤ y) := by
  by_cases h : x ≤ y
  · simp [h, not_lt.mpr h]
  · simp [h, not_le.mp h]

theorem routeGenre_eq (m : Movie) (g : Option (List String)) (hg : g ≠ some []) :
    routeGenre g (Movie.toData m) = mongoGenre g m := by
  rcases g with - | gs
  · rfl
  · cases gs with
    | nil => exact absurd rfl hg
    | cons x xs => simp [routeGenre, mongoGenre, Movie.toData]

theorem routeYear_eq (m : Movie) (y : Option YearFilter) :
    routeYear y (Movie.toData m) = mongoYear y m := by
  rcases y with - | v | ⟨lo, hi⟩
  · rfl
  · by_cases hv : v = 0
    · simp [routeYear, mongoYear, hv]
    · by_cases hmv : m.year = v <;>
        simp [routeYear, mongoYear, hv, hmv, Movie.toData]
  · rcases hlo : truthyInt lo with - | a <;> rcases hhi : truthyInt hi with - | b <;>
      simp [routeYear, mongoYear, hlo, hhi, jsNumInt, Movie.toData, decide_lt_not_le,
        Bool.not_not]

theorem routeRating_eq (m : Movie) (r : Option RatingFilter)
    (hr : ratingActive r = true → scoreTruthy (Movie.toData m) = true) :
    routeRating r (Movie.toData m) = mongoRating r m := by
  rcases r with - | v | ⟨lo, hi⟩
  · rfl
  · by_cases hv : v = 0
    · simp [routeRating, mongoRating, ratingActive, hv]
    · have hsc : scoreTruthy (Movie.toData m) = true := by
        apply hr
        simp [ratingActive, hv]
      rcases hscore : m.rating.imdbScore with - | s
      · exfalso
        simp [scoreTruthy, Movie.toData, hscore] at hsc
      · have hs0 : ¬ s = 0 := by
          simpa [scoreTruthy, Movie.toData, hscore] using hsc
        simp [routeRating, mongoRating, ratingActive, scoreTruthy, Movie.toData,
          hscore, hv, hs0, decide_lt_not_le, Bool.not_not]
  · have hsc : scoreTruthy (Movie.toData m) = true := by
      apply hr
      simp [ratingActive]
    rcases hscore : m.rating.imdbScore with - | s
    · exfalso
      simp [scoreTruthy, Movie.toData, hscore] at hsc
    · have hs0 : ¬ s = 0 := by
        simpa [scoreTruthy, Movie.toData, hscore] using hsc
      rcases hlo : truthyRat lo with - | a <;> rcases hhi : truthyRat hi with - | b <;>
        simp [routeRating, mongoRating, ratingActive, scoreTruthy, Movie.toData,
          hscore, hs0, hlo, hhi, decide_lt_not_le, Bool.not_not]

/-! ### Claim C6 -/

/-- Claim C6 counterexample: a record with a null primary score under the
scalar rating filter 5 — the in-memory filter keeps it (the
`movie.rating.imdb.score` truthiness guard skips the whole check) while the
store query's `$gte` excludes it, so `getCachedMovies` drops it; selection is
not identical. -/
theorem C6_counterexample :
    routeKeep none none (some (RatingFilter.atLeast 5)) (Movie.toData mNullScore) = true ∧
      mongoRating (some (RatingFilter.atLeast 5)) mNullScore = false ∧
      mongoQueryMatch envBase 0 none none none (some (RatingFilter.atLeast 5))
        mNullScore = false := by
  exact ⟨by decide, by decide, by decide⟩

/-- Claim C6 (amended): for every candidate record and every filter
combination, the in-memory filtering of the movies router and the store-query
filtering of `getCachedMovies` agree — with two provisos forced by the code:
the genre parameter is a nonempty list, and whenever the rating filter is
active (truthy) the record's primary score is non-null and nonzero; a record
with a null or zero score passes the in-memory rating filter but is excluded
by the store query.  For the `year` sort key, the in-memory comparator orders
records exactly as the store's key comparison does in both directions (the
`|| 0` coercion is the identity there); the title key, by contrast, is
compared case-insensitively in memory but case-sensitively by the store, and
the rating key orders a null score below a zero score only in the store. -/
theorem C6_filter_sort_agreement :
    (∀ (m : Movie) (g : Option (List String)) (y : Option YearFilter)
        (r : Option RatingFilter),
        g ≠ some [] →
        (ratingActive r = true → scoreTruthy (Movie.toData m) = true) →
        routeKeep g y r (Movie.toData m) =
          (mongoGenre g m && mongoYear y m && mongoRating r m)) ∧
    (∀ (descOrd : Bool) (a b : Movie),
        routeCompare SortKey.year descOrd (Movie.toData a) (Movie.toData b) =
          mongoCmp SortKey.year descOrd a b) := by
  constructor
  · intro m g y r hg hr
    unfold routeKeep
    rw [routeGenre_eq m g hg, routeYear_eq m y, routeRating_eq m r hr]
  · intro descOrd a b
    rfl

/-- Claim C6 witness: a concrete record with score 7 under a combined
genre/year-range/rating filter — both filters agree (and keep it) — plus a
concrete pair ordered identically by the year comparators. -/
theorem C6_filter_sort_agreement_witness :
    (routeKeep (some ["Action"]) (some (YearFilter.range (some 2000) none))
        (some (RatingFilter.atLeast 5)) (Movie.toData mMidScore) =
      (mongoGenre (some ["Action"]) mMidScore &&
        mongoYear (some (YearFilter.range (some 2000) none)) mMidScore &&
        mongoRating (some (RatingFilter.atLeast 5)) mMidScore)) ∧
      routeKeep (some ["Action"]) (some (YearFilter.range (some 2000) none))
        (some (RatingFilter.atLeast 5)) (Movie.toData mMidScore) = true ∧
      routeCompare SortKey.year true (Movie.toData mNullScore) (Movie.toData mMidScore) =
        mongoCmp SortKey.year true mNullScore mMidScore := by
  have h1 := C6_filter_sort_agreement.1 mMidScore (some ["Action"])
    (some (YearFilter.range (some 2000) none)) (some (RatingFilter.atLeast 5))
    (by decide) (by decide)
  have h2 := C6_filter_sort_agreement.2 true mNullScore mMidScore
  exact ⟨h1, by decide, h2⟩

/-! ### Ceiling-division lemmas (for Claim C8) -/

theorem ceilDiv_ge {total limit : Nat} (hl : 1 ≤ limit) :
    total ≤ ((total + limit - 1) / limit) * limit := by
  have hmod := Nat.div_add_mod (total + limit - 1) limit
  have hlt : (total + limit - 1) % limit < limit := Nat.mod_lt _ (by omega)
  rw [Nat.mul_comm]
  generalize hq : limit * ((total + limit - 1) / limit) = x at hmod
  omega

theorem ceilDiv_min {total limit n : Nat} (hl : 1 ≤ limit) (h : total ≤ n * limit) :
    (total + limit - 1) / limit ≤ n := by
  have h1 : total + limit - 1 ≤ (limit - 1) + n * limit := by omega
  calc (total + limit - 1) / limit
      ≤ ((limit - 1) + n * limit) / limit := Nat.div_le_div_right h1
    _ = (limit - 1) / limit + n := Nat.add_mul_div_right _ _ (by omega)
    _ = n := by
        rw [Nat.div_eq_of_lt (by omega)]
        omega

theorem length_orderedOf (env : Env) (store : List Movie) (now : Time)
    (search : Option String) (g : Option (List String)) (y : Option YearFilter)
    (r : Option RatingFilter) (k : SortKey) (descOrd : Bool) :
    (orderedOf env store now search g y r k descOrd).length =
      (matchedOf env store now search g y r).length := by
  cases search <;> simp [orderedOf, length_sortLe]

/-! ### Claim C8 -/

/-- Claim C8: pagination over the cached listing is 1-indexed with the Joi
schema bounding the page size to `[1, 50]` (default 20) and the page number to
at least 1 (default 1); the slice returned is records `(page-1)*limit` through
`page*limit - 1` of the ordered result, hence of length
`min limit (total - (page-1)*limit)`; the reported `total` counts all matching
records and `pages` is exactly `ceil(total/limit)` — the least `n` with
`total ≤ n * limit`. -/
theorem C8_pagination :
    (∀ (o : Option Int) (v : Int), joiLimit o = some v → 1 ≤ v ∧ v ≤ 50) ∧
    (∀ (o : Option Int) (v : Int), joiPage o = some v → 1 ≤ v) ∧
    (∀ (env : Env) (store : List Movie) (now : Time) (search : Option String)
        (g : Option (List String)) (y : Option YearFilter) (r : Option RatingFilter)
        (k : SortKey) (descOrd : Bool) (page limit : Nat), 1 ≤ limit →
        (getCachedMovies env store now search g y r k descOrd page limit).movies =
            ((orderedOf env store now search g y r k descOrd).drop
              ((page - 1) * limit)).take limit ∧
          (getCachedMovies env store now search g y r k descOrd page limit).total =
            (matchedOf env store now search g y r).length ∧
          (getCachedMovies env store now search g y r k descOrd page limit).movies.length =
            min limit
              ((getCachedMovies env store now search g y r k descOrd page limit).total -
                (page - 1) * limit) ∧
          (getCachedMovies env store now search g y r k descOrd page limit).total ≤
            (getCachedMovies env store now search g y r k descOrd page limit).pages *
              limit ∧
          (∀ n : Nat,
            (getCachedMovies env store now search g y r k descOrd page limit).total ≤
              n * limit →
            (getCachedMovies env store now search g y r k descOrd page limit).pages ≤ n)) := by
  refine ⟨?_, ?_, ?_⟩
  · intro o v h
    cases o with
    | none =>
      simp only [joiLimit, Option.some.injEq] at h
      omega
    | some x =>
      simp only [joiLimit] at h
      split at h
      · rename_i hcond
        simp only [Bool.and_eq_true, decide_eq_true_eq] at hcond
        cases h
        omega
      · cases h
  · intro o v h
    cases o with
    | none =>
      simp only [joiPage, Option.some.injEq] at h
      omega
    | some x =>
      simp only [joiPage] at h
      split at h
      · rename_i hcond
        cases h
        omega
      · cases h
  · intro env store now search g y r k descOrd page limit hl
    refine ⟨rfl, rfl, ?_, ?_, ?_⟩
    · show (((orderedOf env store now search g y r k descOrd).drop
          ((page - 1) * limit)).take limit).length = _
      rw [List.length_take, List.length_drop, length_orderedOf]
      rfl
    · exact ceilDiv_ge hl
    · intro n hn
      exact ceilDiv_min hl hn

/-- Claim C8 witness: the spec's scenario — 45 active records, page 2, limit
20 — yields exactly 20 records, `total = 45` and `pages = 3`; and the Joi
bounds at the default (none ↦ 20) and an out-of-range 51. -/
theorem C8_pagination_witness :
    ((1 : Int) ≤ 20 ∧ (20 : Int) ≤ 50) ∧
      joiLimit (some 51) = none ∧
      (getCachedMovies envBase store45 0 none none none none SortKey.createdAt false
          2 20).movies.length =
        min 20
          ((getCachedMovies envBase store45 0 none none none none SortKey.createdAt false
            2 20).total - (2 - 1) * 20) ∧
      (getCachedMovies envBase store45 0 none none none none SortKey.createdAt false
          2 20).movies.length = 20 ∧
      (getCachedMovies envBase store45 0 none none none none SortKey.createdAt false
          2 20).total = 45 ∧
      (getCachedMovies envBase store45 0 none none none none SortKey.createdAt false
          2 20).pages = 3 := by
  have hj := C8_pagination.1 none 20 (by decide)
  have hp := (C8_pagination.2.2 envBase store45 0 none none none none SortKey.createdAt
    false 2 20 (by decide)).2.2.1
  exact ⟨hj, by decide, hp, by decide, by decide, by decide⟩

end MovieFlix
